import Mathlib

set_option maxRecDepth 100000
set_option maxHeartbeats 2000000

/-!
Verification development for the uvdata-rust repository.

The code under src/ is shallowly embedded below: pure Rust functions become
Lean functions; floating-point scalars are modelled as exact rationals;
machine integers are modelled as naturals or integers (the claims only touch
ranges where no wrap-around occurs); fallible Rust code returning
hdf5::Result or Result<_, String> becomes Except/ROut/WRes values; Rust
panics (unwrap/expect) become a distinguished panic outcome.  The HDF5 store
is modelled as a record of optional datasets keyed like the on-disk header.
The geodetic transforms and the serde JSON codec are external collaborators
per the spec (sections 1 and 6) and are taken as parameters of the codec.
-/

attribute [local semireducible] Rat.add Rat.sub Rat.mul Rat.inv Rat.ofScientific

deriving instance DecidableEq for Except

namespace UVD

/-! ## ASCII string helpers (Rust to_lowercase, trim_matches, contains, replace) -/

/-- ASCII lowercase of one character, the fragment of Rust char lowercasing
exercised by this code base (all strings involved are ASCII). -/
def asciiLowerChar (c : Char) : Char :=
  if 65 ≤ c.toNat ∧ c.toNat ≤ 90 then Char.ofNat (c.toNat + 32) else c

/-- ASCII lowercase of a string, modelling Rust str::to_lowercase on ASCII input. -/
def asciiLower (s : String) : String :=
  String.mk (s.data.map asciiLowerChar)

/-- Whitespace test, the ASCII fragment of Rust char::is_whitespace. -/
def isWsChar (c : Char) : Bool :=
  c = ' ' || c = '\n' || c = '\t' || c = '\r'

/-- Rust str::trim_matches(char::is_whitespace): strip leading and trailing whitespace. -/
def trimWs (s : String) : String :=
  String.mk (((s.data.dropWhile isWsChar).reverse.dropWhile isWsChar).reverse)

/-- List-level prefix test used to implement the substring search below. -/
def startsWithL : List Char → List Char → Bool
  | [], _ => true
  | _ :: _, [] => false
  | a :: as, b :: bs => a = b && startsWithL as bs

/-- List-level substring test. -/
def containsL (pat : List Char) : List Char → Bool
  | [] => pat.isEmpty
  | c :: rest => startsWithL pat (c :: rest) || containsL pat rest

/-- Rust str::contains with a string pattern (substring containment). -/
def strContains (s pat : String) : Bool :=
  containsL pat.data s.data

/-- Rust .replace(" ", "").replace("\n", "") used on histories before the
version-stamp containment test. -/
def stripSpNl (s : String) : String :=
  String.mk (s.data.filter (fun c => !(c = ' ' || c = '\n')))

/-- Character admissible in an hdf5 FixedAscii value. -/
def isAsciiChar (c : Char) : Bool := c.toNat < 128

/-- FixedAscii::<n>::from_ascii: succeeds exactly when the string is ASCII and
holds at most n bytes. -/
def fixedAscii (n : ℕ) (s : String) : Option String :=
  if s.data.length ≤ n ∧ s.data.all isAsciiChar then some s else none

/-- Checked FixedAscii<50> conversion of every antenna name, as performed
elementwise by the mapv in to_file. -/
def mapFixedAscii (n : ℕ) : List String → Option (List String)
  | [] => some []
  | x :: xs =>
    match fixedAscii n x, mapFixedAscii n xs with
    | some a, some as => some (a :: as)
    | _, _ => none

/-! ## The library version stamp -/

/-- Modelled from the spec: the global version string constant is embedded at
build time from Cargo.toml (env CARGO_PKG_VERSION), a file not under src/;
the spec (section 9) specifies it only as a process-wide read-only constant,
so a fixed representative value is used.  No claim depends on its text. -/
def VERSION_STR : String := "0.1.0"

/-- print_version_str from src/uvh5.rs. -/
def print_version_str : String :=
  " Read/Written with uvdata-rust " ++ VERSION_STR ++ "."

/-- The history stamping step shared by from_file and to_file: append the
version string unless a whitespace-stripped copy is already contained. -/
def stampHistory (h : String) : String :=
  if strContains (stripSpNl h) (stripSpNl print_version_str) then h
  else h ++ print_version_str

/-! ## Tolerant numeric comparison (approx::abs_diff_eq) -/

/-- Absolute tolerance used throughout the tolerant equalities. -/
def tol6 : ℚ := 1 / 1000000

/-- Default f32 epsilon used by abs_diff_eq! with no explicit epsilon
(f32::EPSILON = 2 to the minus 23). -/
def epsF32 : ℚ := 1 / 8388608

/-- abs_diff_eq with explicit epsilon, over the rational model of floats. -/
def qtol (eps a b : ℚ) : Bool := decide (|a - b| ≤ eps)

/-- Elementwise comparison of two lists by a comparator, requiring equal length
(the shape check built into ndarray abs_diff_eq and array equality). -/
def listEqBy {α β : Type} (f : α → β → Bool) (xs : List α) (ys : List β) : Bool :=
  xs.length == ys.length && (List.zip xs ys).all (fun p => f p.1 p.2)

/-- Comparison of two optional values by a comparator; both absent counts equal. -/
def optEqBy {α β : Type} (f : α → β → Bool) : Option α → Option β → Bool
  | some a, some b => f a b
  | none, none => true
  | _, _ => false

/-- Tolerant 1-D float array comparison. -/
def listTol (eps : ℚ) (xs ys : List ℚ) : Bool := listEqBy (qtol eps) xs ys

/-- Tolerant 2-D float array comparison. -/
def list2Tol (eps : ℚ) (xs ys : List (List ℚ)) : Bool := listEqBy (listTol eps) xs ys

/-! ## Domain enumerations (src/base.rs) -/

inductive VisUnit
  | Uncalib
  | Jansky
  | Kelvinstr
deriving DecidableEq, BEq, Repr

/-- Display of VisUnit goes through the Debug derive: the variant name. -/
def VisUnit.display : VisUnit → String
  | .Uncalib => "Uncalib"
  | .Jansky => "Jansky"
  | .Kelvinstr => "Kelvinstr"

/-- VisUnit::from_str. -/
def VisUnit.from_str (input : String) : Except String VisUnit :=
  let u := asciiLower (trimWs input)
  if u = "uncalib" then .ok .Uncalib
  else if u = "jy" then .ok .Jansky
  else if u = "k str" then .ok .Kelvinstr
  else .error ("Unknown Visibility Unit: " ++ u ++ ".")

inductive PhaseType
  | Drift
  | Phased
  | Multi
deriving DecidableEq, BEq, Repr

/-- Display of PhaseType via the Debug derive. -/
def PhaseType.display : PhaseType → String
  | .Drift => "Drift"
  | .Phased => "Phased"
  | .Multi => "Multi"

/-- PhaseType::from_str.  Note there is no arm for the "unknown" sentinel. -/
def PhaseType.from_str (input : String) : Except String PhaseType :=
  let u := asciiLower (trimWs input)
  if u = "drift" then .ok .Drift
  else if u = "phased" then .ok .Phased
  else if u = "multi" then .ok .Multi
  else .error ("Unknown phase type: " ++ u ++ ".")

inductive EqConvention
  | Divide
  | Multiply
  | Unknown
deriving DecidableEq, BEq, Repr

/-- Display of EqConvention via the Debug derive. -/
def EqConvention.display : EqConvention → String
  | .Divide => "Divide"
  | .Multiply => "Multiply"
  | .Unknown => "Unknown"

/-- EqConvention::from_str. -/
def EqConvention.from_str (input : String) : Except String EqConvention :=
  let u := asciiLower (trimWs input)
  if u = "divide" then .ok .Divide
  else if u = "multiply" then .ok .Multiply
  else if u = "unknown" then .ok .Unknown
  else .error ("Unknown Equalization Convention: " ++ u ++ ".")

inductive Orientation
  | East
  | North
  | Unknown
deriving DecidableEq, BEq, Repr

/-- Display of Orientation via the Debug derive. -/
def Orientation.display : Orientation → String
  | .East => "East"
  | .North => "North"
  | .Unknown => "Unknown"

/-- Orientation::from_str (the source reuses the equalization-convention
message verbatim). -/
def Orientation.from_str (input : String) : Except String Orientation :=
  let u := asciiLower (trimWs input)
  if u = "east" then .ok .East
  else if u = "north" then .ok .North
  else if u = "unknown" then .ok .Unknown
  else .error ("Unknown Equalization Convention: " ++ u ++ ".")

inductive BltOrders
  | Ant1
  | Ant2
  | Time
  | Baseline
  | Bda
  | Unknown
deriving DecidableEq, BEq, Repr

/-- Display of BltOrders via the Debug derive. -/
def BltOrders.display : BltOrders → String
  | .Ant1 => "Ant1"
  | .Ant2 => "Ant2"
  | .Time => "Time"
  | .Baseline => "Baseline"
  | .Bda => "Bda"
  | .Unknown => "Unknown"

structure BltOrder where
  major : BltOrders
  minor : BltOrders
deriving DecidableEq, BEq, Repr

/-- Display for BltOrder: "major, minor" with both parts lowercased. -/
def BltOrder.display (b : BltOrder) : String :=
  asciiLower b.major.display ++ ", " ++ asciiLower b.minor.display

/-- BltOrder::from_str: the twelve explicit pairs, "bda," and "unknown". -/
def BltOrder.from_str (input : String) : Except String BltOrder :=
  let u := asciiLower (trimWs input)
  if u = "bda," then .ok ⟨.Bda, .Bda⟩
  else if u = "baseline, time" then .ok ⟨.Baseline, .Time⟩
  else if u = "baseline, ant1" then .ok ⟨.Baseline, .Ant1⟩
  else if u = "baseline, ant2" then .ok ⟨.Baseline, .Ant2⟩
  else if u = "time, baseline" then .ok ⟨.Time, .Baseline⟩
  else if u = "time, ant1" then .ok ⟨.Time, .Ant1⟩
  else if u = "time, ant2" then .ok ⟨.Time, .Ant2⟩
  else if u = "ant1, ant2" then .ok ⟨.Ant1, .Ant2⟩
  else if u = "ant1, time" then .ok ⟨.Ant1, .Time⟩
  else if u = "ant1, baseline" then .ok ⟨.Ant1, .Baseline⟩
  else if u = "ant2, ant1" then .ok ⟨.Ant2, .Ant1⟩
  else if u = "ant2, time" then .ok ⟨.Ant2, .Time⟩
  else if u = "ant2, baseline" then .ok ⟨.Ant2, .Baseline⟩
  else if u = "unknown" then .ok ⟨.Unknown, .Unknown⟩
  else .error ("Unknown Blt Ordering: " ++ u ++ ".")

/-! ## Phase-center catalog (src/base.rs) -/

structure UnphasedVal where
  cat_id : ℕ
  cat_type : String
deriving DecidableEq, BEq, Repr

structure SiderealVal where
  cat_id : ℕ
  cat_type : String
  cat_lon : ℚ
  cat_lat : ℚ
  cat_frame : String
  cat_epoch : ℚ
  cat_pm_ra : Option ℚ
  cat_pm_dec : Option ℚ
  cat_dist : Option ℚ
  cat_vrad : Option ℚ
  info_source : Option String
deriving DecidableEq, BEq, Repr

structure EphemVal where
  cat_id : ℕ
  cat_type : String
  cat_lon : List ℚ
  cat_lat : List ℚ
  cat_frame : String
  cat_epoch : ℚ
  cat_dist : Option (List ℚ)
  cat_vrad : Option (List ℚ)
  info_source : Option String
deriving DecidableEq, BEq, Repr

inductive CatTypes
  | Unphased (v : UnphasedVal)
  | Sidereal (v : SiderealVal)
  | Ephem (v : EphemVal)
deriving DecidableEq, BEq, Repr

/-- The phase-center catalog: a BTreeMap from names to entries, modelled as an
association list kept sorted by key (BTreeMap iteration order). -/
abbrev Catalog := List (String × CatTypes)

/-- BTreeMap::insert on the sorted association list model. -/
def catInsert (k : String) (v : CatTypes) : Catalog → Catalog
  | [] => [(k, v)]
  | (k2, v2) :: rest =>
    match compare k k2 with
    | .lt => (k, v) :: (k2, v2) :: rest
    | .eq => (k, v) :: rest
    | .gt => (k2, v2) :: catInsert k v rest

/-- Tolerant equality on SiderealVal, mirroring its PartialEq impl. -/
def SiderealVal.eqB (a b : SiderealVal) : Bool :=
  a.cat_id == b.cat_id && a.cat_type == b.cat_type &&
  qtol tol6 a.cat_lon b.cat_lon && qtol tol6 a.cat_lat b.cat_lat &&
  a.cat_frame == b.cat_frame && qtol tol6 a.cat_epoch b.cat_epoch &&
  optEqBy (qtol tol6) a.cat_pm_ra b.cat_pm_ra &&
  optEqBy (qtol tol6) a.cat_pm_dec b.cat_pm_dec &&
  optEqBy (qtol tol6) a.cat_dist b.cat_dist &&
  optEqBy (qtol tol6) a.cat_vrad b.cat_vrad &&
  a.info_source == b.info_source

/-- Tolerant equality on EphemVal, mirroring its PartialEq impl. -/
def EphemVal.eqB (a b : EphemVal) : Bool :=
  a.cat_id == b.cat_id && a.cat_type == b.cat_type &&
  listTol tol6 a.cat_lon b.cat_lon && listTol tol6 a.cat_lat b.cat_lat &&
  a.cat_frame == b.cat_frame && qtol tol6 a.cat_epoch b.cat_epoch &&
  optEqBy (listTol tol6) a.cat_dist b.cat_dist &&
  optEqBy (listTol tol6) a.cat_vrad b.cat_vrad &&
  a.info_source == b.info_source

/-- Equality on CatTypes: the derived PartialEq dispatches to the variant
equalities (exact for Unphased, tolerant for the other two). -/
def CatTypes.eqB : CatTypes → CatTypes → Bool
  | .Unphased a, .Unphased b => decide (a = b)
  | .Sidereal a, .Sidereal b => a.eqB b
  | .Ephem a, .Ephem b => a.eqB b
  | _, _ => false

/-- Equality of catalogs: BTreeMap equality is keywise equality of the sorted
entry sequences. -/
def catalogEqB (a b : Catalog) : Bool :=
  listEqBy (fun p q => p.1 == q.1 && CatTypes.eqB p.2 q.2) a b

/-! ## UVMeta and ArrayMetaData (src/base.rs) -/

/-- Cartesian telescope location, the [f64; 3] of the source. -/
abbrev V3 := ℚ × ℚ × ℚ

structure UVMeta where
  nbls : ℕ
  nblts : ℕ
  nspws : ℕ
  npols : ℕ
  ntimes : ℕ
  nfreqs : ℕ
  nphases : ℕ
  nants_data : ℕ
  blt_order : BltOrder
  vis_units : VisUnit
  nants_telescope : ℕ
  phase_type : PhaseType
  x_orientation : Orientation
  instrument : String
  telescope_name : String
  telescope_location : V3
  object_name : String
  eq_coeffs_convention : EqConvention
  dut1 : Option ℚ
  gst0 : Option ℚ
  rdate : Option String
  earth_omega : Option ℚ
  timesys : Option String
  uvplane_reference_time : Option ℤ
  history : String
deriving DecidableEq, BEq, Repr

/-- Componentwise tolerant comparison of the 3-vector telescope location. -/
def v3Tol (eps : ℚ) (a b : V3) : Bool :=
  qtol eps a.1 b.1 && qtol eps a.2.1 b.2.1 && qtol eps a.2.2 b.2.2

/-- Tolerant equality on UVMeta mirroring its PartialEq impl: exact on counts,
enums and strings, absolute difference at most 1e-6 on the telescope location,
default f32 epsilon on the optional f32 scalars, exact on history. -/
def UVMeta.eqB (a b : UVMeta) : Bool :=
  a.nbls == b.nbls && a.nblts == b.nblts && a.nspws == b.nspws &&
  a.npols == b.npols && a.ntimes == b.ntimes && a.nfreqs == b.nfreqs &&
  a.nphases == b.nphases && a.nants_data == b.nants_data &&
  decide (a.blt_order = b.blt_order) && decide (a.vis_units = b.vis_units) &&
  a.nants_telescope == b.nants_telescope && decide (a.phase_type = b.phase_type) &&
  decide (a.x_orientation = b.x_orientation) && a.instrument == b.instrument &&
  a.telescope_name == b.telescope_name &&
  v3Tol tol6 a.telescope_location b.telescope_location &&
  a.object_name == b.object_name &&
  decide (a.eq_coeffs_convention = b.eq_coeffs_convention) &&
  optEqBy (qtol epsF32) a.dut1 b.dut1 &&
  optEqBy (qtol epsF32) a.gst0 b.gst0 &&
  a.rdate == b.rdate &&
  optEqBy (qtol epsF32) a.earth_omega b.earth_omega &&
  a.timesys == b.timesys &&
  a.uvplane_reference_time == b.uvplane_reference_time &&
  a.history == b.history

/-- UVMeta::new, the default constructor. -/
def UVMeta.new : UVMeta where
  nbls := 0
  nblts := 0
  npols := 0
  nspws := 0
  ntimes := 0
  nfreqs := 0
  nphases := 1
  nants_data := 0
  nants_telescope := 0
  blt_order := ⟨.Unknown, .Unknown⟩
  x_orientation := .Unknown
  phase_type := .Drift
  vis_units := .Uncalib
  instrument := "Unknown"
  telescope_name := "Unknown"
  telescope_location := (0, 0, 0)
  object_name := "Unknown"
  eq_coeffs_convention := .Unknown
  dut1 := none
  gst0 := none
  rdate := none
  earth_omega := none
  timesys := none
  uvplane_reference_time := none
  history := ""

structure ArrayMetaData where
  spw_array : List ℕ
  uvw_array : List (List ℚ)
  time_array : List ℚ
  lst_array : List ℚ
  ant_1_array : List ℕ
  ant_2_array : List ℕ
  baseline_array : List ℕ
  freq_array : List ℚ
  spw_id_array : List ℕ
  polarization_array : List ℤ
  integration_time : List ℚ
  channel_width : List ℚ
  antenna_numbers : List ℕ
  antenna_names : List String
  antenna_positions : List (List ℚ)
  eq_coeffs : Option (List (List ℚ))
  antenna_diameters : Option (List ℚ)
  phase_center_catalog : Catalog
  phase_center_id_array : List ℕ
deriving DecidableEq, BEq, Repr

/-- Tolerant equality on ArrayMetaData mirroring its PartialEq impl (the
source compares spw_array twice in a row; one comparison carries the same
content). -/
def ArrayMetaData.eqB (a b : ArrayMetaData) : Bool :=
  a.spw_array == b.spw_array &&
  list2Tol tol6 a.uvw_array b.uvw_array &&
  listTol tol6 a.time_array b.time_array &&
  listTol tol6 a.lst_array b.lst_array &&
  a.ant_1_array == b.ant_1_array &&
  a.ant_2_array == b.ant_2_array &&
  a.baseline_array == b.baseline_array &&
  listTol tol6 a.freq_array b.freq_array &&
  a.spw_id_array == b.spw_id_array &&
  a.polarization_array == b.polarization_array &&
  listTol tol6 a.integration_time b.integration_time &&
  listTol tol6 a.channel_width b.channel_width &&
  a.antenna_numbers == b.antenna_numbers &&
  a.antenna_names == b.antenna_names &&
  list2Tol tol6 a.antenna_positions b.antenna_positions &&
  optEqBy (list2Tol tol6) a.eq_coeffs b.eq_coeffs &&
  optEqBy (listTol tol6) a.antenna_diameters b.antenna_diameters &&
  catalogEqB a.phase_center_catalog b.phase_center_catalog &&
  a.phase_center_id_array == b.phase_center_id_array

/-- ArrayMetaData::new: zero-fill the arrays from the UVMeta counts and seed
the catalog with one zenith entry per phase.  Note antenna_names is built in
the source from Array::<f32>::range(0.0, nblts as f32, 1.0) mapped through
to_string, so it has nblts entries holding the decimal texts of 0..nblts
(exact for every count a 24-bit f32 mantissa represents, which covers all
claims here). -/
def ArrayMetaData.new (meta : UVMeta) : ArrayMetaData :=
  let cat : Catalog := (List.range meta.nphases).foldl
    (fun c phase => catInsert ("zenith_" ++ toString phase)
      (.Unphased ⟨phase, "unphased"⟩) c) []
  { spw_array := List.replicate meta.nspws 0
    uvw_array := List.replicate meta.nblts (List.replicate 3 0)
    time_array := List.replicate meta.nblts 0
    lst_array := List.replicate meta.nblts 0
    ant_1_array := List.replicate meta.nblts 0
    ant_2_array := List.replicate meta.nblts 0
    baseline_array := List.replicate meta.nblts 0
    freq_array := List.replicate meta.nfreqs 0
    spw_id_array := List.replicate meta.nfreqs 0
    polarization_array := List.replicate meta.npols 0
    integration_time := List.replicate meta.nblts 0
    channel_width := List.replicate meta.nfreqs 0
    antenna_numbers := List.replicate meta.nants_telescope 0
    antenna_names := (List.range meta.nblts).map (fun x => toString x)
    antenna_positions := List.replicate meta.nants_telescope (List.replicate 3 0)
    eq_coeffs := none
    antenna_diameters := none
    phase_center_catalog := cat
    phase_center_id_array := List.replicate meta.nblts 0 }

/-! ## Baseline packing utilities (src/utils.rs) -/

/-- antnums_to_baseline: pack the two antenna-number arrays elementwise,
branching only on the attempt256 flag. -/
def antnums_to_baseline (ant1 ant2 : List ℕ) (attempt256 : Bool) : List ℕ :=
  match attempt256 with
  | true => List.zipWith (fun a1 a2 => 256 * (a1 + 1) + (a2 + 1)) ant1 ant2
  | false => List.zipWith (fun a1 a2 => 2048 * (a1 + 1) + (a2 + 1) + 2 ^ 16) ant1 ant2

/-- baseline_to_antnums: unpack baseline numbers back into antenna numbers. -/
def baseline_to_antnums (baselines : List ℕ) (use256 : Bool) : List ℕ × List ℕ :=
  let modulus : ℕ := match use256 with
  | false => 2048
  | true => 256
  let bls : List ℕ := match use256 with
  | true => baselines
  | false => baselines.map (fun x => x - 2 ^ 16)
  let ant2 : List ℕ := bls.map (fun x => x % modulus - 1)
  let ant1 : List ℕ := (bls.zip ant2).map (fun p => (p.1 - (p.2 + 1)) / modulus - 1)
  (ant1, ant2)

/-! ## Data cubes and the aggregate roots (src/uvh5.rs, src/lib.rs) -/

/-- Complex visibility sample as a (re, im) pair: the model of Complex of T
and of the on-disk Complexh5 record, between which the source converts
componentwise. -/
abbrev Cplx := ℚ × ℚ

/-- Rank-3 array [nblts, ntimes, npols] as nested lists. -/
abbrev Cube3 (α : Type) := List (List (List α))

/-- Rank-4 legacy array [nblts, nspws, ntimes, npols] as nested lists. -/
abbrev Cube4 (α : Type) := List (List (List (List α)))

structure UVH5 where
  meta : UVMeta
  meta_arrays : ArrayMetaData
  data_array : Option (Cube3 Cplx)
  nsample_array : Option (Cube3 ℚ)
  flag_array : Option (Cube3 Bool)
deriving DecidableEq, BEq, Repr

/-- UVData has exactly the same five fields (src/lib.rs); the two From impls
move the fields across unchanged. -/
structure UVData where
  meta : UVMeta
  meta_arrays : ArrayMetaData
  data_array : Option (Cube3 Cplx)
  nsample_array : Option (Cube3 ℚ)
  flag_array : Option (Cube3 Bool)
deriving DecidableEq, BEq, Repr

/-- UVData::new: build the array metadata from the counts and either leave
the cubes unset or allocate zero/false-filled cubes of shape
[nblts, ntimes, npols]. -/
def UVData.new (meta : UVMeta) (metadata_only : Bool) : UVData :=
  let meta_arrays := ArrayMetaData.new meta
  match metadata_only with
  | true =>
    { meta, meta_arrays, data_array := none, nsample_array := none, flag_array := none }
  | false =>
    { meta, meta_arrays
      data_array := some (List.replicate meta.nblts
        (List.replicate meta.ntimes (List.replicate meta.npols ((0 : ℚ), (0 : ℚ)))))
      nsample_array := some (List.replicate meta.nblts
        (List.replicate meta.ntimes (List.replicate meta.npols (0 : ℚ))))
      flag_array := some (List.replicate meta.nblts
        (List.replicate meta.ntimes (List.replicate meta.npols false))) }

/-- From UVData for UVH5: fieldwise. -/
def UVData.toUVH5 (u : UVData) : UVH5 :=
  { meta := u.meta, meta_arrays := u.meta_arrays, data_array := u.data_array
    nsample_array := u.nsample_array, flag_array := u.flag_array }

/-- Tolerant equality of the complex samples: compare_complex_arrays checks
the real parts and the imaginary parts within 1e-6. -/
def cplxTol (a b : Cplx) : Bool :=
  qtol tol6 a.1 b.1 && qtol tol6 a.2 b.2

/-- Elementwise rank-3 comparison with shape checks at every level. -/
def cube3EqBy {α β : Type} (f : α → β → Bool) : Cube3 α → Cube3 β → Bool :=
  listEqBy (listEqBy (listEqBy f))

/-- Tolerant equality on the five-field aggregate, mirroring the PartialEq of
UVData/UVH5: tolerant meta, tolerant meta arrays, complex data within 1e-6,
nsamples within 1e-6, flags exact. -/
def uvh5EqB (a b : UVH5) : Bool :=
  a.meta.eqB b.meta &&
  a.meta_arrays.eqB b.meta_arrays &&
  optEqBy (cube3EqBy cplxTol) a.data_array b.data_array &&
  optEqBy (cube3EqBy (qtol tol6)) a.nsample_array b.nsample_array &&
  a.flag_array == b.flag_array

/-! ## The on-disk store model

The HDF5 file is modelled as one record of optional datasets, one field per
(header key, stored type) pair that the codec touches.  Shape-ambiguous
datasets carry a sum over the dimensionalities the codec dispatches on.  The
keys Nphase (written by to_file) and Nphases (read by from_file) are distinct
datasets on disk, hence two distinct fields here. -/

structure Store where
  nblts : Option ℕ := none
  nspws : Option ℕ := none
  npols : Option ℕ := none
  ntimes : Option ℕ := none
  nfreqs : Option ℕ := none
  nants_data : Option ℕ := none
  nants_telescope : Option ℕ := none
  nphases : Option ℕ := none
  nphase : Option ℕ := none
  blt_order : Option String := none
  vis_units : Option String := none
  x_orientation : Option String := none
  eq_coeffs_convention : Option String := none
  phase_type : Option String := none
  instrument : Option String := none
  telescope_name : Option String := none
  object_name : Option String := none
  history : Option String := none
  rdate : Option String := none
  timesys : Option String := none
  latitude : Option ℚ := none
  longitude : Option ℚ := none
  altitude : Option ℚ := none
  dut1 : Option ℚ := none
  gst0 : Option ℚ := none
  earth_omega : Option ℚ := none
  uvplane_reference_time : Option ℤ := none
  spw_array : Option (List ℕ) := none
  uvw_array : Option (List (List ℚ)) := none
  time_array : Option (List ℚ) := none
  lst_array : Option (List ℚ) := none
  ant_1_array : Option (List ℕ) := none
  ant_2_array : Option (List ℕ) := none
  freq_array : Option (Sum (List ℚ) (List (List ℚ))) := none
  flex_spw_id_array : Option (List ℕ) := none
  flex_spw : Option Bool := none
  polarization_array : Option (List ℤ) := none
  integration_time : Option (List ℚ) := none
  channel_width : Option (Sum ℚ (List ℚ)) := none
  antenna_numbers : Option (List ℕ) := none
  antenna_names : Option (List String) := none
  antenna_positions : Option (List (List ℚ)) := none
  eq_coeffs : Option (List (List ℚ)) := none
  antenna_diameters : Option (List ℚ) := none
  phase_center_catalog : Option (List (String × String)) := none
  phase_center_id_array : Option (List ℕ) := none
  phase_center_ra : Option ℚ := none
  phase_center_dec : Option ℚ := none
  phase_center_epoch : Option ℚ := none
  phase_center_frame : Option String := none
  visdata : Option (Sum (Cube3 Cplx) (Cube4 Cplx)) := none
  flags : Option (Sum (Cube3 Bool) (Cube4 Bool)) := none
  nsamples : Option (Sum (Cube3 ℚ) (Cube4 ℚ)) := none
deriving Repr

/-- The freshly created, empty file. -/
def Store.empty : Store := {}

/-- External collaborators of the codec, specified by the spec (sections 1
and 6) as signatures only: the WGS-84 geodetic transforms with the radians
to degrees conversion of the write path (transcendental float arithmetic
outside the rational embedding), and the serde JSON codec for catalog
entries. -/
structure Ext where
  xyz_from_latlonalt : V3 → V3
  latlonalt_from_xyz : V3 → V3
  to_degrees : ℚ → ℚ
  json_to_string : CatTypes → String
  json_from_str : String → Except String CatTypes

/-- Write-path outcome: the final store on success, a returned error (Err),
or a Rust panic (unwrap/expect) carrying the store written so far. -/
inductive WRes where
  | ok (s : Store)
  | err (m : String)
  | panic (m : String) (s : Store)
deriving Repr

/-- Sequencing of write steps: errors and panics abort. -/
def WRes.then (r : WRes) (f : Store → WRes) : WRes :=
  match r with
  | .ok s => f s
  | .err m => .err m
  | .panic m s => .panic m s

/-- True exactly on the panic outcome with the given message. -/
def WRes.isPanicMsg : WRes → Option String
  | .panic m _ => some m
  | _ => none

/-- The partially written store carried by a panic, a default otherwise. -/
def WRes.panicStoreD : WRes → Store → Store
  | .panic _ s, _ => s
  | _, d => d

/-- True exactly on the returned-error outcome. -/
def WRes.isErr : WRes → Bool
  | .err _ => true
  | _ => false

/-- FixedAscii conversion followed by a store update, with the panic message
of the expect at the corresponding source site. -/
def wAscii (n : ℕ) (v : String) (msg : String) (s : Store)
    (upd : Store → String → Store) : WRes :=
  match fixedAscii n v with
  | some a => .ok (upd s a)
  | none => .panic msg s

/-- blt_order is written only when its display is not the unknown pair. -/
def wOptBlt (b : BltOrder) (s : Store) : WRes :=
  if b.display = "unknown, unknown" then .ok s
  else wAscii 20 b.display ("Unable to write blt_order") s
    (fun s v => { s with blt_order := some v })

/-- eq_coeffs_convention is written only when not the Unknown sentinel. -/
def wOptEqConv (e : EqConvention) (s : Store) : WRes :=
  if asciiLower e.display = "unknown" then .ok s
  else wAscii 8 (asciiLower e.display) ("Unable to write eq_coeffs_convention") s
    (fun s v => { s with eq_coeffs_convention := some v })

/-- Optional string scalar written only when present (if let Some). -/
def wOptAscii (n : ℕ) (v : Option String) (msg : String) (s : Store)
    (upd : Store → String → Store) : WRes :=
  match v with
  | none => .ok s
  | some x => wAscii n x msg s upd

/-- Antenna names are written through FixedAscii<50> conversions that panic
elementwise on overflow. -/
def wNames (names : List String) (s : Store) : WRes :=
  match mapFixedAscii 50 names with
  | some ns => .ok { s with antenna_names := some ns }
  | none => .panic ("Unable to write antenna_names") s

/-- Serialize every catalog entry into the already-created catalog group. -/
def wCatGroup (ext : Ext) : Catalog → Store → WRes
  | [], s => .ok s
  | (name, v) :: rest, s =>
    match fixedAscii 20000 (ext.json_to_string v) with
    | some js =>
      let s2 := { s with phase_center_catalog := some ((s.phase_center_catalog.getD []) ++ [(name, js)]) }
      wCatGroup ext rest s2
    | none => .panic ("Unable to write out catalog values.") s

/-- The phase-center section of to_file: branch on nphases, then on the first
catalog entry in BTreeMap order.  On the legacy single-phase Sidereal path
the scalar phase_center_ra is written from cat_lat and phase_center_dec from
cat_lon, exactly as in the source. -/
def writePhaseCenter (ext : Ext) (m : UVMeta) (a : ArrayMetaData) (s : Store) : WRes :=
  match m.nphases with
  | 1 =>
    match a.phase_center_catalog.head? with
    | some (_, .Unphased _) =>
      wAscii 6 ("drift") ("Unable to write phase_type") s
        (fun s v => { s with phase_type := some v })
    | some (_, .Sidereal v) =>
      (wAscii 6 (asciiLower m.phase_type.display) ("Unable to write phase_type") s
        (fun s p => { s with phase_type := some p })).then fun s =>
      (wAscii 200 (asciiLower v.cat_frame) ("Cannot convert phase type to ascii.") s
        (fun s f => { s with phase_center_frame := some f })).then fun s =>
      .ok { s with phase_center_ra := some v.cat_lat
                   phase_center_dec := some v.cat_lon
                   phase_center_epoch := some v.cat_epoch }
    | some (name, .Ephem v) =>
      let s := { s with nphase := some 1 }
      match fixedAscii 20000 (ext.json_to_string (.Ephem v)) with
      | some js => .ok { s with phase_center_catalog := some [(name, js)] }
      | none => .panic ("Unable to write out catalog values.") s
    | none => .err "Invalid phase center catalog entry None"
  | val =>
    (wAscii 6 (asciiLower m.phase_type.display) ("Unable to write phase_type") s
      (fun s p => { s with phase_type := some p })).then fun s =>
    let s := { s with nphase := some val }
    let s := { s with phase_center_catalog := some [] }
    (wCatGroup ext a.phase_center_catalog s).then fun s =>
    .ok { s with phase_center_id_array := some a.phase_center_id_array }

/-- UVH5::to_file.  The path argument is replaced by the produced store; the
overwrite flag only selects create versus create_excl on a pre-existing file,
which has no counterpart in the single-store model. -/
def UVH5.to_file (ext : Ext) (_overwrite : Bool) (d : UVH5) : WRes :=
  match d.data_array with
  | none => .err "Unable to write metadata only objects to UVH5 files."
  | some da =>
    let m := d.meta
    let a := d.meta_arrays
    let s : Store := { Store.empty with
      nblts := some m.nblts, nspws := some m.nspws, npols := some m.npols
      ntimes := some m.ntimes, nfreqs := some m.nfreqs
      nants_data := some m.nants_data }
    (wOptBlt m.blt_order s).then fun s =>
    let s := { s with nants_telescope := some m.nants_telescope }
    (wAscii 7 (asciiLower m.vis_units.display) ("Unable to write vis_units") s
      (fun s v => { s with vis_units := some v })).then fun s =>
    (wAscii 5 (asciiLower m.x_orientation.display) ("Unable to write x_orientation") s
      (fun s v => { s with x_orientation := some v })).then fun s =>
    (wAscii 200 m.instrument ("Unable to write instrument") s
      (fun s v => { s with instrument := some v })).then fun s =>
    (wAscii 200 m.telescope_name ("Unable to write telescope_name") s
      (fun s v => { s with telescope_name := some v })).then fun s =>
    let lla := ext.latlonalt_from_xyz m.telescope_location
    let s := { s with latitude := some (ext.to_degrees lla.1)
                      longitude := some (ext.to_degrees lla.2.1)
                      altitude := some lla.2.2 }
    (wAscii 200 m.object_name ("Unable to write object_name") s
      (fun s v => { s with object_name := some v })).then fun s =>
    (wOptEqConv m.eq_coeffs_convention s).then fun s =>
    let s := { s with dut1 := m.dut1, gst0 := m.gst0 }
    (wOptAscii 200 m.rdate ("Unable to write rdate") s
      (fun s v => { s with rdate := some v })).then fun s =>
    let s := { s with earth_omega := m.earth_omega }
    (wOptAscii 200 m.timesys ("Unable to write timesys") s
      (fun s v => { s with timesys := some v })).then fun s =>
    let s := { s with uvplane_reference_time := m.uvplane_reference_time }
    (wAscii 20000 (stampHistory m.history) ("Unable to write history") s
      (fun s v => { s with history := some v })).then fun s =>
    let s := { s with
      spw_array := some a.spw_array, uvw_array := some a.uvw_array
      time_array := some a.time_array, lst_array := some a.lst_array
      ant_1_array := some a.ant_1_array, ant_2_array := some a.ant_2_array
      freq_array := some (.inl a.freq_array)
      flex_spw_id_array := some a.spw_id_array
      flex_spw := some true
      polarization_array := some a.polarization_array
      integration_time := some a.integration_time
      channel_width := some (.inr a.channel_width)
      antenna_numbers := some a.antenna_numbers }
    (wNames a.antenna_names s).then fun s =>
    let s := { s with antenna_positions := some a.antenna_positions
                      eq_coeffs := a.eq_coeffs
                      antenna_diameters := a.antenna_diameters }
    (writePhaseCenter ext m a s).then fun s =>
    let s := { s with visdata := some (.inl da) }
    (match d.flag_array with
     | some fa => WRes.ok { s with flags := some (.inl fa) }
     | none => WRes.panic ("unwrap on None") s).then fun s =>
    match d.nsample_array with
    | some na => .ok { s with nsamples := some (.inl na) }
    | none => .panic ("unwrap on None") s

/-! ## The read path (UVH5::from_file) -/

/-- Read-path outcome: the parsed aggregate on success, a propagated error,
or a Rust panic (the required-count unwraps, remove_axis on a fat axis). -/
inductive ROut (α : Type) where
  | ok (a : α)
  | err (m : String)
  | panicked (m : String)
deriving Repr

/-- Sequencing of read steps: errors and panics abort. -/
def ROut.bind {α β : Type} : ROut α → (α → ROut β) → ROut β
  | .ok a, f => f a
  | .err m, _ => .err m
  | .panicked m, _ => .panicked m

/-- Extract a successful value. -/
def ROut.getOk? {α : Type} : ROut α → Option α
  | .ok a => some a
  | _ => none

/-- Required dataset read: absence is an hdf5 error naming the dataset. -/
def reqD {α : Type} (o : Option α) (name : String) : ROut α :=
  match o with
  | some v => .ok v
  | none => .err ("Missing dataset " ++ name)

/-- Option::unwrap on an optionally read scalar: absence panics. -/
def unwrapD {α : Type} (o : Option α) : ROut α :=
  match o with
  | some v => .ok v
  | none => .panicked ("unwrap on None")

/-- Lift a parse result into the read chain (the question-mark operator). -/
def liftE {α : Type} : Except String α → ROut α
  | .ok a => .ok a
  | .error m => .err m

/-- ndarray remove_axis(Axis(0)) on a rank-2 array: the leading axis must
have length one. -/
def removeAxis0 {α : Type} : List (List α) → ROut (List α)
  | [v] => .ok v
  | _ => .panicked ("remove_axis: axis length is not 1")

/-- ndarray remove_axis(Axis(1)) on a rank-4 array: the spectral-window axis
must have length one. -/
def removeAxis1 {α : Type} : Cube4 α → ROut (Cube3 α)
  | [] => .ok []
  | x :: xs =>
    match x with
    | [y] => (removeAxis1 xs).bind fun ys => .ok (y :: ys)
    | _ => .panicked ("remove_axis: axis length is not 1")

/-- The freq_array dimensionality dispatch of from_file. -/
def readFreq (s : Store) : ROut (List ℚ) :=
  match s.freq_array with
  | none => .err ("Missing dataset freq_array")
  | some (.inl v) => .ok v
  | some (.inr vv) => removeAxis0 vv

/-- The channel_width dimensionality dispatch of from_file: a scalar is
broadcast to nfreqs entries. -/
def readChannelWidth (s : Store) (nfreqs : ℕ) : ROut (List ℚ) :=
  match s.channel_width with
  | none => .err ("Missing dataset channel_width")
  | some (.inl c) => .ok (List.replicate nfreqs c)
  | some (.inr v) => .ok v

/-- Decode every member of the catalog group through the JSON collaborator,
inserting into the BTreeMap; the first decode failure is fatal. -/
def decodeEntries (ext : Ext) : List (String × String) → Catalog → ROut Catalog
  | [], cat => .ok cat
  | (name, js) :: rest, cat =>
    match ext.json_from_str js with
    | .ok v => decodeEntries ext rest (catInsert name v cat)
    | .error e => .err ("Json Err " ++ e)

/-- The phase-center section of from_file: a present catalog group is decoded
member by member together with the id array; otherwise the legacy single
entry is derived from the phase type, the Sidereal entry taking cat_lon from
phase_center_ra and cat_lat from phase_center_dec. -/
def readPhaseCatalog (ext : Ext) (s : Store) (phase_type : PhaseType)
    (object_name : String) (nblts : ℕ) : ROut (Catalog × List ℕ) :=
  match s.phase_center_catalog with
  | some entries =>
    (decodeEntries ext entries []).bind fun cat =>
    (reqD s.phase_center_id_array ("phase_center_id_array")).bind fun ids =>
    .ok (cat, ids)
  | none =>
    match phase_type with
    | .Drift =>
      .ok (catInsert ("zenith") (.Unphased ⟨0, "unphased"⟩) [], List.replicate nblts 0)
    | .Phased =>
      let cat_frame := asciiLower ((s.phase_center_frame).getD "unknown")
      (unwrapD s.phase_center_ra).bind fun ra =>
      (unwrapD s.phase_center_dec).bind fun dec =>
      (unwrapD s.phase_center_epoch).bind fun epoch =>
      .ok (catInsert object_name (.Sidereal
        { cat_id := 0, cat_type := "sidereal", cat_lon := ra, cat_lat := dec
          cat_frame := cat_frame, cat_epoch := epoch
          cat_pm_ra := none, cat_pm_dec := none, cat_dist := none
          cat_vrad := none, info_source := some "UVData" }) [],
        List.replicate nblts 0)
    | .Multi => .ok ([], List.replicate nblts 0)

/-- The /Data section of from_file: optional bulk read with the rank-3 versus
legacy rank-4 dispatch on visdata; flags and nsamples are read at the same
rank. -/
def readDataCubes (s : Store) (read_data : Bool) :
    ROut (Option (Cube3 Cplx) × Option (Cube3 ℚ) × Option (Cube3 Bool)) :=
  match read_data with
  | false => .ok (none, none, none)
  | true =>
    (reqD s.visdata ("visdata")).bind fun vd =>
    (reqD s.flags ("flags")).bind fun fl =>
    (reqD s.nsamples ("nsamples")).bind fun ns =>
    match vd with
    | .inl d3 =>
      match fl, ns with
      | .inl f3, .inl n3 => .ok (some d3, some n3, some f3)
      | _, _ => .err ("type mismatch reading Data group")
    | .inr d4 =>
      (removeAxis1 d4).bind fun d3 =>
      match fl, ns with
      | .inr f4, .inr n4 =>
        (removeAxis1 f4).bind fun f3 =>
        (removeAxis1 n4).bind fun n3 =>
        .ok (some d3, some n3, some f3)
      | _, _ => .err ("type mismatch reading Data group")

/-- UVH5::from_file over the store model, following the source read order.
Required scalars read through read_scalar are unwrapped (absence panics);
datasets read directly through dataset(..) error when absent; enum scalars
default to the unknown sentinel before parsing; the history is stamped with
the version string when not already contained. -/
def UVH5.from_file (ext : Ext) (s : Store) (read_data : Bool) : ROut UVH5 :=
  (reqD s.latitude ("latitude")).bind fun lat =>
  (reqD s.longitude ("longitude")).bind fun lon =>
  (reqD s.altitude ("altitude")).bind fun alt =>
  let telescope_location := ext.xyz_from_latlonalt (lat, lon, alt)
  (reqD s.instrument ("instrument")).bind fun instrument =>
  (reqD s.telescope_name ("telescope_name")).bind fun telescope_name =>
  (reqD s.history ("history")).bind fun history0 =>
  let history := stampHistory history0
  (match s.vis_units with
   | some u => liftE (VisUnit.from_str u)
   | none => ROut.ok VisUnit.Uncalib).bind fun vis_units =>
  let unknown := "unknown"
  let dut1 := s.dut1
  let earth_omega := s.earth_omega
  let gst0 := s.gst0
  let rdate := s.rdate
  let timesys := s.timesys
  (liftE (Orientation.from_str ((s.x_orientation).getD unknown))).bind fun x_orientation =>
  (liftE (BltOrder.from_str ((s.blt_order).getD unknown))).bind fun blt_order =>
  let antenna_diameters := s.antenna_diameters
  let uvplane_reference_time := s.uvplane_reference_time
  let eq_coeffs := s.eq_coeffs
  (liftE (EqConvention.from_str ((s.eq_coeffs_convention).getD unknown))).bind fun eq_coeffs_convention =>
  (liftE (PhaseType.from_str ((s.phase_type).getD unknown))).bind fun phase_type =>
  let object_name := asciiLower ((s.object_name).getD unknown)
  (unwrapD s.nants_data).bind fun nants_data =>
  (unwrapD s.nants_telescope).bind fun nants_telescope =>
  (unwrapD s.nblts).bind fun nblts =>
  (unwrapD s.nspws).bind fun nspws =>
  (unwrapD s.npols).bind fun npols =>
  (unwrapD s.ntimes).bind fun ntimes =>
  (unwrapD s.nfreqs).bind fun nfreqs =>
  let nphases := (s.nphases).getD 1
  (reqD s.ant_1_array ("ant_1_array")).bind fun ant_1_array =>
  (reqD s.ant_2_array ("ant_2_array")).bind fun ant_2_array =>
  let baseline_array := antnums_to_baseline ant_1_array ant_2_array false
  let nbls := baseline_array.dedup.length
  let meta : UVMeta :=
    { nbls, nblts, nspws, npols, ntimes, nfreqs, nphases, nants_data
      blt_order, vis_units, nants_telescope, phase_type, x_orientation
      instrument, telescope_name, telescope_location, object_name
      eq_coeffs_convention, dut1, gst0, rdate, earth_omega, timesys
      uvplane_reference_time, history }
  (reqD s.spw_array ("spw_array")).bind fun spw_array =>
  (reqD s.uvw_array ("uvw_array")).bind fun uvw_array =>
  (reqD s.time_array ("time_array")).bind fun time_array =>
  (reqD s.lst_array ("lst_array")).bind fun lst_array =>
  (reqD s.antenna_names ("antenna_names")).bind fun antenna_names =>
  (readFreq s).bind fun freq_array =>
  let spw_id_array := (s.flex_spw_id_array).getD (List.replicate meta.nfreqs 0)
  (reqD s.polarization_array ("polarization_array")).bind fun polarization_array =>
  (reqD s.integration_time ("integration_time")).bind fun integration_time =>
  (readChannelWidth s meta.nfreqs).bind fun channel_width =>
  (reqD s.antenna_numbers ("antenna_numbers")).bind fun antenna_numbers =>
  (reqD s.antenna_positions ("antenna_positions")).bind fun antenna_positions =>
  (readPhaseCatalog ext s phase_type object_name meta.nblts).bind fun pc =>
  let meta_arrays : ArrayMetaData :=
    { spw_array, uvw_array, time_array, lst_array, ant_1_array, ant_2_array
      baseline_array, freq_array, spw_id_array, polarization_array
      integration_time, channel_width, antenna_numbers, antenna_names
      antenna_positions, eq_coeffs, antenna_diameters
      phase_center_catalog := pc.1, phase_center_id_array := pc.2 }
  (readDataCubes s read_data).bind fun cubes =>
  .ok { meta, meta_arrays, data_array := cubes.1
        nsample_array := cubes.2.1, flag_array := cubes.2.2 }

/-! ## Round-trip statements -/

/-- Replace the history field of the aggregate. -/
def UVH5.setHistory (u : UVH5) (h : String) : UVH5 :=
  { u with meta := { u.meta with history := h } }

/-- Tolerant equality of UVH5 values, except that the history of the first
argument may differ from that of the second only by the presence of the
appended version stamp. -/
def eqExceptHistB (u v : UVH5) : Bool :=
  uvh5EqB (u.setHistory v.meta.history) v &&
  (u.meta.history == v.meta.history ||
   u.meta.history == v.meta.history ++ print_version_str)

/-- The full round trip: write d with to_file, read the produced store back
with from_file (read_data = true), and compare with the tolerant equality
modulo history stamping.  False whenever either direction fails. -/
def roundTripEqB (ext : Ext) (ow : Bool) (d : UVH5) : Bool :=
  match UVH5.to_file ext ow d with
  | .ok s =>
    match UVH5.from_file ext s true with
    | .ok d2 => eqExceptHistB d2 d
    | _ => false
  | _ => false

/-- The three data cubes are present. -/
def cubesPresent (d : UVH5) : Bool :=
  d.data_array.isSome && d.nsample_array.isSome && d.flag_array.isSome

/-- Claim C1 as stated by the spec: every UVData with the three cubes present
survives the write/read round trip up to tolerant equality and history
stamping. -/
def c1ClaimProp : Prop :=
  ∀ (ext : Ext) (ow : Bool) (d : UVH5),
    cubesPresent d = true → roundTripEqB ext ow d = true

/-! ## Concrete instances used by counterexamples and witnesses -/

/-- A concrete collaborator bundle whose geodetic round trip is exact; the
JSON codec is never reached on the inputs below. -/
def extId : Ext :=
  { xyz_from_latlonalt := fun v => v
    latlonalt_from_xyz := fun v => v
    to_degrees := fun q => q
    json_to_string := fun _ => ""
    json_from_str := fun _ => .error "unsupported" }

/-- The Sidereal catalog entry of the round-trip counterexample: cat_lat = 0
and cat_lon = 1, all optional fields in their post-read normal form. -/
def svCex : SiderealVal :=
  { cat_id := 0, cat_type := "sidereal", cat_lon := 1, cat_lat := 0
    cat_frame := "icrs", cat_epoch := 2000
    cat_pm_ra := none, cat_pm_dec := none, cat_dist := none
    cat_vrad := none, info_source := some "UVData" }

/-- A fully populated single-phase Sidereal aggregate whose catalog entry has
cat_lat = 0 and cat_lon = 1; every field other than the latitude/longitude
pair is chosen to round-trip exactly. -/
def dCex1 : UVH5 :=
  { meta :=
    { nbls := 1, nblts := 1, nspws := 1, npols := 1, ntimes := 1, nfreqs := 1
      nphases := 1, nants_data := 1
      blt_order := ⟨.Unknown, .Unknown⟩
      vis_units := .Uncalib, nants_telescope := 1
      phase_type := .Phased, x_orientation := .East
      instrument := "i", telescope_name := "t"
      telescope_location := (0, 0, 0)
      object_name := "obj", eq_coeffs_convention := .Unknown
      dut1 := none, gst0 := none, rdate := none, earth_omega := none
      timesys := none, uvplane_reference_time := none, history := "" }
    meta_arrays :=
    { spw_array := [0], uvw_array := [[0, 0, 0]]
      time_array := [0], lst_array := [0]
      ant_1_array := [0], ant_2_array := [0]
      baseline_array := [67585]
      freq_array := [0], spw_id_array := [0]
      polarization_array := [0], integration_time := [0]
      channel_width := [0], antenna_numbers := [0]
      antenna_names := ["a"], antenna_positions := [[0, 0, 0]]
      eq_coeffs := none, antenna_diameters := none
      phase_center_catalog := [("obj", .Sidereal svCex)]
      phase_center_id_array := [0] }
    data_array := some [[[(0, 0)]]]
    nsample_array := some [[[0]]]
    flag_array := some [[[false]]] }

/-- The same aggregate with a Drift-style catalog: the write-consistent shape
used as a round-trip witness. -/
def dDrift1 : UVH5 :=
  { meta :=
    { nbls := 1, nblts := 1, nspws := 1, npols := 1, ntimes := 1, nfreqs := 1
      nphases := 1, nants_data := 1
      blt_order := ⟨.Unknown, .Unknown⟩
      vis_units := .Uncalib, nants_telescope := 1
      phase_type := .Drift, x_orientation := .East
      instrument := "i", telescope_name := "t"
      telescope_location := (0, 0, 0)
      object_name := "unknown", eq_coeffs_convention := .Unknown
      dut1 := none, gst0 := none, rdate := none, earth_omega := none
      timesys := none, uvplane_reference_time := none, history := "" }
    meta_arrays :=
    { spw_array := [0], uvw_array := [[0, 0, 0]]
      time_array := [0], lst_array := [0]
      ant_1_array := [0], ant_2_array := [0]
      baseline_array := [67585]
      freq_array := [0], spw_id_array := [0]
      polarization_array := [0], integration_time := [0]
      channel_width := [0], antenna_numbers := [0]
      antenna_names := ["a"], antenna_positions := [[0, 0, 0]]
      eq_coeffs := none, antenna_diameters := none
      phase_center_catalog := [("zenith", .Unphased ⟨0, "unphased"⟩)]
      phase_center_id_array := [0] }
    data_array := some [[[(0, 0)]]]
    nsample_array := some [[[0]]]
    flag_array := some [[[false]]] }

/-- The dDrift1 aggregate with its flag cube removed (data cube still there):
the shape that drives the late unwrap panic in to_file. -/
def dNoFlag : UVH5 :=
  { dDrift1 with flag_array := none }

/-- The dDrift1 aggregate with vis_units = Kelvinstr. -/
def dKelvin : UVH5 :=
  { dDrift1 with meta := { dDrift1.meta with vis_units := .Kelvinstr } }

/-- An on-disk header with every field needed before the phase_type read, but
no phase_type scalar. -/
def sNoPhaseType : Store :=
  { latitude := some 0, longitude := some 0, altitude := some 0
    instrument := some "i", telescope_name := some "t", history := some ""
    nants_data := some 1, nants_telescope := some 1
    nblts := some 1, nspws := some 1, npols := some 1
    ntimes := some 1, nfreqs := some 1
    ant_1_array := some [0], ant_2_array := some [0]
    spw_array := some [0], uvw_array := some [[0, 0, 0]]
    time_array := some [0], lst_array := some [0]
    antenna_names := some ["a"]
    freq_array := some (.inl [0])
    polarization_array := some [0], integration_time := some [0]
    channel_width := some (.inr [0])
    antenna_numbers := some [0], antenna_positions := some [[0, 0, 0]] }

/-- The same header with phase_type present (drift) and vis_units still
absent, exercising the Uncalib default. -/
def sDriftHeader : Store :=
  { sNoPhaseType with phase_type := some "drift" }

/-- The dDrift1 aggregate with x_orientation = Unknown. -/
def dXUnknown : UVH5 :=
  { dDrift1 with meta := { dDrift1.meta with x_orientation := .Unknown } }

/-- The store writePhaseCenter produces from the dCex1 inputs on an empty
store: phase_center_ra carries cat_lat = 0 and phase_center_dec carries
cat_lon = 1. -/
def s3w : Store :=
  { Store.empty with
    phase_type := some "phased"
    phase_center_frame := some "icrs"
    phase_center_ra := some 0, phase_center_dec := some 1
    phase_center_epoch := some 2000 }

/-- A phased legacy header: no catalog group, scalar ra = 5 and dec = 7. -/
def sPhasedHeader : Store :=
  { sDriftHeader with
    phase_type := some "phased"
    phase_center_ra := some 5, phase_center_dec := some 7
    phase_center_epoch := some 2000 }

/-- The catalog readPhaseCatalog derives from sPhasedHeader: cat_lon is the
stored ra and cat_lat the stored dec. -/
def catPhasedW : Catalog :=
  [("obj", .Sidereal
    { cat_id := 0, cat_type := "sidereal", cat_lon := 5, cat_lat := 7
      cat_frame := "unknown", cat_epoch := 2000
      cat_pm_ra := none, cat_pm_dec := none, cat_dist := none
      cat_vrad := none, info_source := some "UVData" })]

/-- The UVMeta of the repository test fixtures: nblts = 15 and
nants_telescope = 12. -/
def c6meta : UVMeta :=
  { UVMeta.new with
    nbls := 3, nblts := 15, ntimes := 5, nfreqs := 12
    npols := 4, nspws := 1, nants_data := 5, nants_telescope := 12
    vis_units := .Jansky, instrument := "Test", telescope_name := "Test" }

/-! ## Claim statements that need a named proposition -/

/-- Claim C4 as stated: the encoding of each element is base-256 exactly when
attempt256 holds and both antenna numbers fit the legacy range, base-2048
with the 2 to the 16 offset otherwise. -/
def c4ClaimProp : Prop :=
  ∀ (a1 a2 : List ℕ) (att : Bool),
    antnums_to_baseline a1 a2 att = List.zipWith (fun x y =>
      if att = true ∧ x + 1 < 256 ∧ y + 1 < 256 then 256 * (x + 1) + (y + 1)
      else 2048 * (x + 1) + (y + 1) + 2 ^ 16) a1 a2

/-- Claim C7 as stated: every enumeration value parses back from the
lowercased canonical display, and the Bda ordering serializes as the string
bda-comma with empty minor. -/
def c7ClaimProp : Prop :=
  (∀ v : VisUnit, VisUnit.from_str (asciiLower v.display) = .ok v) ∧
  (∀ v : PhaseType, PhaseType.from_str (asciiLower v.display) = .ok v) ∧
  (∀ v : EqConvention, EqConvention.from_str (asciiLower v.display) = .ok v) ∧
  (∀ v : Orientation, Orientation.from_str (asciiLower v.display) = .ok v) ∧
  (∀ b : BltOrder, BltOrder.from_str (asciiLower b.display) = .ok b) ∧
  BltOrder.display ⟨.Bda, .Bda⟩ = "bda,"

/-- The write-consistency class on which the amended round-trip law holds:
the three cubes are present; the redundant fields (nbls, baseline_array,
phase_center_id_array) agree with their re-derived values; every string
satisfies the representability bound of its FixedAscii conversion; the
enum fields avoid the writer/parser mismatches (vis_units is Uncalib,
x_orientation is not Unknown, blt_order is the unknown pair or one of the
parseable pairs); nphases is 1 with either the canonical Drift catalog or a
normalized Sidereal catalog whose lat and lon agree within tolerance (the
write path swaps them); and the geodetic transforms round-trip the telescope
location within tolerance. -/
structure RoundTripSafe (ext : Ext) (d : UVH5) : Prop where
  hdata : d.data_array.isSome = true
  hflag : d.flag_array.isSome = true
  hnsamp : d.nsample_array.isSome = true
  hnph : d.meta.nphases = 1
  hvis : d.meta.vis_units = .Uncalib
  hx : d.meta.x_orientation = .East ∨ d.meta.x_orientation = .North
  hblt : d.meta.blt_order = ⟨.Unknown, .Unknown⟩ ∨
    BltOrder.from_str d.meta.blt_order.display = .ok d.meta.blt_order
  hinstr : fixedAscii 200 d.meta.instrument = some d.meta.instrument
  htname : fixedAscii 200 d.meta.telescope_name = some d.meta.telescope_name
  hobj : fixedAscii 200 d.meta.object_name = some d.meta.object_name
  hobjlow : asciiLower d.meta.object_name = d.meta.object_name
  hrdate : ∀ r, d.meta.rdate = some r → fixedAscii 200 r = some r
  htsys : ∀ t, d.meta.timesys = some t → fixedAscii 200 t = some t
  hhist : fixedAscii 20000 (stampHistory d.meta.history) = some (stampHistory d.meta.history)
  hnames : mapFixedAscii 50 d.meta_arrays.antenna_names = some d.meta_arrays.antenna_names
  hnbls : d.meta.nbls = (antnums_to_baseline d.meta_arrays.ant_1_array
    d.meta_arrays.ant_2_array false).dedup.length
  hbl : d.meta_arrays.baseline_array = antnums_to_baseline d.meta_arrays.ant_1_array
    d.meta_arrays.ant_2_array false
  hid : d.meta_arrays.phase_center_id_array = List.replicate d.meta.nblts 0
  hgeo : v3Tol tol6 (ext.xyz_from_latlonalt
      (ext.to_degrees (ext.latlonalt_from_xyz d.meta.telescope_location).1,
       ext.to_degrees (ext.latlonalt_from_xyz d.meta.telescope_location).2.1,
       (ext.latlonalt_from_xyz d.meta.telescope_location).2.2))
      d.meta.telescope_location = true
  hcat : (d.meta_arrays.phase_center_catalog = [("zenith", .Unphased ⟨0, "unphased"⟩)] ∧
      d.meta.phase_type = .Drift) ∨
    (∃ v : SiderealVal,
      d.meta_arrays.phase_center_catalog = [(d.meta.object_name, .Sidereal v)] ∧
      d.meta.phase_type = .Phased ∧ v.cat_id = 0 ∧ v.cat_type = "sidereal" ∧
      qtol tol6 v.cat_lat v.cat_lon = true ∧
      asciiLower v.cat_frame = v.cat_frame ∧
      fixedAscii 200 v.cat_frame = some v.cat_frame ∧
      v.cat_pm_ra = none ∧ v.cat_pm_dec = none ∧ v.cat_dist = none ∧
      v.cat_vrad = none ∧ v.info_source = some "UVData")

/-- The flat form of the store produced by a successful to_file run, with the
branch-dependent scalars (blt_order, vis_units, x_orientation,
eq_coeffs_convention and the phase-center section) as parameters. -/
def mkWriteStore (ext : Ext) (d : UVH5) (da : Cube3 Cplx) (fa : Cube3 Bool)
    (na : Cube3 ℚ) (cblt : Option String) (cvis cx : String)
    (ceq : Option String) (cpt cpf : Option String)
    (cra cdec cep : Option ℚ) : Store :=
  { nblts := some d.meta.nblts
    nspws := some d.meta.nspws
    npols := some d.meta.npols
    ntimes := some d.meta.ntimes
    nfreqs := some d.meta.nfreqs
    nants_data := some d.meta.nants_data
    nants_telescope := some d.meta.nants_telescope
    nphases := none
    nphase := none
    blt_order := cblt
    vis_units := some cvis
    x_orientation := some cx
    eq_coeffs_convention := ceq
    phase_type := cpt
    instrument := some d.meta.instrument
    telescope_name := some d.meta.telescope_name
    object_name := some d.meta.object_name
    history := some (stampHistory d.meta.history)
    rdate := d.meta.rdate
    timesys := d.meta.timesys
    latitude := some (ext.to_degrees (ext.latlonalt_from_xyz d.meta.telescope_location).1)
    longitude := some (ext.to_degrees (ext.latlonalt_from_xyz d.meta.telescope_location).2.1)
    altitude := some (ext.latlonalt_from_xyz d.meta.telescope_location).2.2
    dut1 := d.meta.dut1
    gst0 := d.meta.gst0
    earth_omega := d.meta.earth_omega
    uvplane_reference_time := d.meta.uvplane_reference_time
    spw_array := some d.meta_arrays.spw_array
    uvw_array := some d.meta_arrays.uvw_array
    time_array := some d.meta_arrays.time_array
    lst_array := some d.meta_arrays.lst_array
    ant_1_array := some d.meta_arrays.ant_1_array
    ant_2_array := some d.meta_arrays.ant_2_array
    freq_array := some (.inl d.meta_arrays.freq_array)
    flex_spw_id_array := some d.meta_arrays.spw_id_array
    flex_spw := some true
    polarization_array := some d.meta_arrays.polarization_array
    integration_time := some d.meta_arrays.integration_time
    channel_width := some (.inr d.meta_arrays.channel_width)
    antenna_numbers := some d.meta_arrays.antenna_numbers
    antenna_names := some d.meta_arrays.antenna_names
    antenna_positions := some d.meta_arrays.antenna_positions
    eq_coeffs := d.meta_arrays.eq_coeffs
    antenna_diameters := d.meta_arrays.antenna_diameters
    phase_center_catalog := none
    phase_center_id_array := none
    phase_center_ra := cra
    phase_center_dec := cdec
    phase_center_epoch := cep
    phase_center_frame := cpf
    visdata := some (.inl da)
    flags := some (.inl fa)
    nsamples := some (.inl na) }

/-- The aggregate produced by reading mkWriteStore back, given the catalog
and id array the phase-center section yields. -/
def mkReadBack (ext : Ext) (d : UVH5) (da : Cube3 Cplx) (fa : Cube3 Bool)
    (na : Cube3 ℚ) (CAT : Catalog) (IDS : List ℕ) : UVH5 :=
  { meta :=
    { nbls := (antnums_to_baseline d.meta_arrays.ant_1_array
        d.meta_arrays.ant_2_array false).dedup.length
      nblts := d.meta.nblts
      nspws := d.meta.nspws
      npols := d.meta.npols
      ntimes := d.meta.ntimes
      nfreqs := d.meta.nfreqs
      nphases := 1
      nants_data := d.meta.nants_data
      blt_order := d.meta.blt_order
      vis_units := d.meta.vis_units
      nants_telescope := d.meta.nants_telescope
      phase_type := d.meta.phase_type
      x_orientation := d.meta.x_orientation
      instrument := d.meta.instrument
      telescope_name := d.meta.telescope_name
      telescope_location := ext.xyz_from_latlonalt
        (ext.to_degrees (ext.latlonalt_from_xyz d.meta.telescope_location).1,
         ext.to_degrees (ext.latlonalt_from_xyz d.meta.telescope_location).2.1,
         (ext.latlonalt_from_xyz d.meta.telescope_location).2.2)
      object_name := d.meta.object_name
      eq_coeffs_convention := d.meta.eq_coeffs_convention
      dut1 := d.meta.dut1
      gst0 := d.meta.gst0
      rdate := d.meta.rdate
      earth_omega := d.meta.earth_omega
      timesys := d.meta.timesys
      uvplane_reference_time := d.meta.uvplane_reference_time
      history := stampHistory (stampHistory d.meta.history) }
    meta_arrays :=
    { spw_array := d.meta_arrays.spw_array
      uvw_array := d.meta_arrays.uvw_array
      time_array := d.meta_arrays.time_array
      lst_array := d.meta_arrays.lst_array
      ant_1_array := d.meta_arrays.ant_1_array
      ant_2_array := d.meta_arrays.ant_2_array
      baseline_array := antnums_to_baseline d.meta_arrays.ant_1_array
        d.meta_arrays.ant_2_array false
      freq_array := d.meta_arrays.freq_array
      spw_id_array := d.meta_arrays.spw_id_array
      polarization_array := d.meta_arrays.polarization_array
      integration_time := d.meta_arrays.integration_time
      channel_width := d.meta_arrays.channel_width
      antenna_numbers := d.meta_arrays.antenna_numbers
      antenna_names := d.meta_arrays.antenna_names
      antenna_positions := d.meta_arrays.antenna_positions
      eq_coeffs := d.meta_arrays.eq_coeffs
      antenna_diameters := d.meta_arrays.antenna_diameters
      phase_center_catalog := CAT
      phase_center_id_array := IDS }
    data_array := some da
    nsample_array := some na
    flag_array := some fa }

/-! # Theorems -/

/-! ## Helper lemmas -/

theorem WRes.then_ok (s : Store) (f : Store → WRes) : (WRes.ok s).then f = f s := rfl

theorem WRes.then_panic (m : String) (s : Store) (f : Store → WRes) :
    (WRes.panic m s).then f = .panic m s := rfl

theorem ROut.bind_ok {α β : Type} (a : α) (f : α → ROut β) :
    (ROut.ok a).bind f = f a := rfl

theorem reqD_some {α : Type} (v : α) (n : String) : reqD (some v) n = .ok v := rfl

theorem unwrapD_some {α : Type} (v : α) : unwrapD (some v) = .ok v := rfl

theorem liftE_ok {α : Type} (a : α) : liftE (Except.ok a : Except String α) = .ok a := rfl

/-- fixedAscii 20 accepts every blt_order display string (at most 18 ASCII
characters). -/
theorem bltDisplayFits (b : BltOrder) : fixedAscii 20 b.display = some b.display := by
  obtain ⟨ma, mi⟩ := b
  cases ma <;> cases mi <;> decide

/-- wOptBlt always succeeds. -/
theorem wOptBlt_ok (b : BltOrder) (s : Store) : ∃ s2, wOptBlt b s = .ok s2 := by
  unfold wOptBlt
  by_cases h : b.display = "unknown, unknown"
  · rw [if_pos h]; exact ⟨s, rfl⟩
  · rw [if_neg h]; unfold wAscii; rw [bltDisplayFits]; exact ⟨_, rfl⟩

/-- fixedAscii 7 accepts the vis_units display of every unit except
Kelvinstr. -/
theorem visUnitFits (u : VisUnit) (h : u ≠ .Kelvinstr) :
    fixedAscii 7 (asciiLower u.display) = some (asciiLower u.display) := by
  cases u
  · decide
  · decide
  · exact absurd rfl h

/-! ## Reflexivity of the tolerant comparators -/

theorem qtol_refl (eps a : ℚ) (he : 0 ≤ eps) : qtol eps a a = true := by
  simp [qtol, sub_self, abs_zero, he]

theorem qtol_symm (eps a b : ℚ) (h : qtol eps a b = true) : qtol eps b a = true := by
  simpa [qtol, abs_sub_comm] using h

theorem tol6_nonneg : (0 : ℚ) ≤ tol6 := by norm_num [tol6]

theorem epsF32_nonneg : (0 : ℚ) ≤ epsF32 := by norm_num [epsF32]

theorem qtol6_refl (a : ℚ) : qtol tol6 a a = true := qtol_refl tol6 a tol6_nonneg

theorem qtolF32_refl (a : ℚ) : qtol epsF32 a a = true := qtol_refl epsF32 a epsF32_nonneg

theorem listEqBy_refl {α : Type} (f : α → α → Bool) (hf : ∀ a, f a a = true)
    (xs : List α) : listEqBy f xs xs = true := by
  simp only [listEqBy, beq_self_eq_true, Bool.true_and]
  induction xs with
  | nil => rfl
  | cons x xs ih => simp [List.zip_cons_cons, hf, ih]

theorem optEqBy_refl {α : Type} (f : α → α → Bool) (hf : ∀ a, f a a = true) :
    ∀ o : Option α, optEqBy f o o = true
  | none => rfl
  | some a => hf a

theorem listTol_refl (eps : ℚ) (he : 0 ≤ eps) (xs : List ℚ) : listTol eps xs xs = true :=
  listEqBy_refl _ (fun a => qtol_refl eps a he) xs

theorem list2Tol_refl (eps : ℚ) (he : 0 ≤ eps) (xs : List (List ℚ)) :
    list2Tol eps xs xs = true :=
  listEqBy_refl _ (listTol_refl eps he) xs

theorem cplxTol_refl (a : Cplx) : cplxTol a a = true := by
  simp [cplxTol, qtol6_refl]

theorem cube3Cplx_refl (c : Cube3 Cplx) : cube3EqBy cplxTol c c = true :=
  listEqBy_refl _ (listEqBy_refl _ (listEqBy_refl _ cplxTol_refl)) c

theorem cube3Q_refl (c : Cube3 ℚ) : cube3EqBy (qtol tol6) c c = true :=
  listEqBy_refl _ (listEqBy_refl _ (listEqBy_refl _ qtol6_refl)) c

theorem v3Tol_refl (a : V3) : v3Tol tol6 a a = true := by
  simp [v3Tol, qtol6_refl]

theorem listTol6_refl (xs : List ℚ) : listTol tol6 xs xs = true :=
  listTol_refl tol6 tol6_nonneg xs

theorem list2Tol6_refl (xs : List (List ℚ)) : list2Tol tol6 xs xs = true :=
  list2Tol_refl tol6 tol6_nonneg xs

theorem optTolF32_refl (o : Option ℚ) : optEqBy (qtol epsF32) o o = true :=
  optEqBy_refl _ qtolF32_refl o

theorem optTol6_refl (o : Option ℚ) : optEqBy (qtol tol6) o o = true :=
  optEqBy_refl _ qtol6_refl o

theorem optListTol6_refl (o : Option (List ℚ)) : optEqBy (listTol tol6) o o = true :=
  optEqBy_refl _ listTol6_refl o

theorem optList2Tol6_refl (o : Option (List (List ℚ))) :
    optEqBy (list2Tol tol6) o o = true :=
  optEqBy_refl _ list2Tol6_refl o

theorem optCube3Cplx_refl (o : Option (Cube3 Cplx)) :
    optEqBy (cube3EqBy cplxTol) o o = true :=
  optEqBy_refl _ cube3Cplx_refl o

theorem optCube3Q_refl (o : Option (Cube3 ℚ)) :
    optEqBy (cube3EqBy (qtol tol6)) o o = true :=
  optEqBy_refl _ cube3Q_refl o

/-! ## History stamping lemmas -/

theorem startsWithL_refl (l : List Char) : startsWithL l l = true := by
  induction l with
  | nil => rfl
  | cons c cs ih => simp [startsWithL, ih]

theorem containsL_append_self (xs pat : List Char) :
    containsL pat (xs ++ pat) = true := by
  induction xs with
  | nil =>
    cases pat with
    | nil => rfl
    | cons c cs => simp [containsL, startsWithL_refl]
  | cons x xs ih => simp [containsL, ih]

theorem strContains_append (a b : String) :
    strContains (stripSpNl (a ++ b)) (stripSpNl b) = true := by
  have hdata : (a ++ b).data = a.data ++ b.data := String.data_append a b
  simp only [strContains, stripSpNl, hdata, List.filter_append]
  exact containsL_append_self _ _

/-- Stamping an already-stamped history is a no-op. -/
theorem stampHistory_idem (h : String) :
    stampHistory (stampHistory h) = stampHistory h := by
  unfold stampHistory
  by_cases hc : strContains (stripSpNl h) (stripSpNl print_version_str) = true
  · rw [if_pos hc, if_pos hc]
  · rw [if_neg hc, if_pos (strContains_append h print_version_str)]

/-- The stamped history is the original or the original with the version
string appended. -/
theorem stampHistory_cases (h : String) :
    (stampHistory h == h || stampHistory h == h ++ print_version_str) = true := by
  unfold stampHistory
  by_cases hc : strContains (stripSpNl h) (stripSpNl print_version_str) = true
  · rw [if_pos hc]
    simp
  · rw [if_neg hc]
    simp

/-! ## Write-step specification lemmas for the round trip -/

theorem wAscii_some (n : ℕ) (v msg : String) (s : Store) (upd : Store → String → Store)
    (h : fixedAscii n v = some v) : wAscii n v msg s upd = .ok (upd s v) := by
  unfold wAscii
  rw [h]

theorem wNames_some (names : List String) (s : Store)
    (h : mapFixedAscii 50 names = some names) :
    wNames names s = .ok { s with antenna_names := some names } := by
  unfold wNames
  rw [h]

/-- The vis_units write accepts and the readback parses, given Uncalib. -/
theorem vis_spec (u : VisUnit) (hu : u = .Uncalib) :
    fixedAscii 7 (asciiLower u.display) = some (asciiLower u.display) ∧
    VisUnit.from_str (asciiLower u.display) = .ok u := by
  subst hu
  exact ⟨by decide, by decide⟩

/-- The x_orientation write accepts and the readback parses, off Unknown. -/
theorem xorient_spec (x : Orientation) (hx : x = .East ∨ x = .North) :
    fixedAscii 5 (asciiLower x.display) = some (asciiLower x.display) ∧
    Orientation.from_str (asciiLower x.display) = .ok x := by
  rcases hx with h | h <;> subst h
  · exact ⟨by decide, by decide⟩
  · exact ⟨by decide, by decide⟩

/-- The blt_order section writes some field value whose readback parses to
the original order. -/
theorem blt_spec (b : BltOrder)
    (hb : b = ⟨.Unknown, .Unknown⟩ ∨ BltOrder.from_str b.display = .ok b) :
    ∃ c : Option String,
      (∀ s : Store, s.blt_order = none → wOptBlt b s = .ok { s with blt_order := c }) ∧
      BltOrder.from_str (c.getD "unknown") = .ok b := by
  rcases hb with hb | hb
  · refine ⟨none, fun s hs => ?_, by rw [hb]; decide⟩
    unfold wOptBlt
    rw [hb, if_pos (by decide)]
    exact congrArg WRes.ok (by rw [← hs])
  · by_cases hU : b.display = "unknown, unknown"
    · rw [hU] at hb
      rw [show BltOrder.from_str "unknown, unknown"
          = Except.error "Unknown Blt Ordering: unknown, unknown." from rfl] at hb
      exact Except.noConfusion hb
    · refine ⟨some b.display, fun s hs => ?_, hb⟩
      unfold wOptBlt
      rw [if_neg hU]
      exact wAscii_some _ _ _ _ _ (bltDisplayFits b)

/-- The eq_coeffs_convention section writes some field value whose readback
parses to the original convention. -/
theorem eqconv_spec (e : EqConvention) :
    ∃ c : Option String,
      (∀ s : Store, s.eq_coeffs_convention = none →
        wOptEqConv e s = .ok { s with eq_coeffs_convention := c }) ∧
      EqConvention.from_str (c.getD "unknown") = .ok e := by
  cases e
  · exact ⟨some "divide", fun s _ => rfl, by decide⟩
  · exact ⟨some "multiply", fun s _ => rfl, by decide⟩
  · refine ⟨none, fun s hs => ?_, by decide⟩
    unfold wOptEqConv
    rw [if_pos (by decide)]
    exact congrArg WRes.ok (by rw [← hs])

/-- The optional rdate write keeps the optional value. -/
theorem rdate_spec (v : Option String) (msg : String)
    (hv : ∀ r, v = some r → fixedAscii 200 r = some r) :
    ∀ s : Store, s.rdate = none →
      wOptAscii 200 v msg s (fun s x => { s with rdate := some x }) =
        .ok { s with rdate := v } := by
  intro s hs
  cases v with
  | none =>
    unfold wOptAscii
    exact congrArg WRes.ok (by rw [← hs])
  | some r =>
    unfold wOptAscii
    exact wAscii_some _ _ _ _ _ (hv r rfl)

/-- The optional timesys write keeps the optional value. -/
theorem tsys_spec (v : Option String) (msg : String)
    (hv : ∀ r, v = some r → fixedAscii 200 r = some r) :
    ∀ s : Store, s.timesys = none →
      wOptAscii 200 v msg s (fun s x => { s with timesys := some x }) =
        .ok { s with timesys := v } := by
  intro s hs
  cases v with
  | none =>
    unfold wOptAscii
    exact congrArg WRes.ok (by rw [← hs])
  | some r =>
    unfold wOptAscii
    exact wAscii_some _ _ _ _ _ (hv r rfl)

/-- The phase-center write on the canonical Drift catalog. -/
theorem wpc_drift (ext : Ext) (m : UVMeta) (a : ArrayMetaData)
    (hnph : m.nphases = 1)
    (hcat : a.phase_center_catalog = [("zenith", .Unphased ⟨0, "unphased"⟩)]) :
    ∀ s : Store, writePhaseCenter ext m a s =
      .ok { s with phase_type := some "drift" } := by
  intro s
  unfold writePhaseCenter
  rw [hnph, hcat]
  rfl

/-- The phase-center write on a single normalized Sidereal catalog: the ra
scalar receives cat_lat and the dec scalar cat_lon. -/
theorem wpc_sidereal (ext : Ext) (m : UVMeta) (a : ArrayMetaData)
    (k : String) (v : SiderealVal)
    (hnph : m.nphases = 1)
    (hcat : a.phase_center_catalog = [(k, .Sidereal v)])
    (hpt : m.phase_type = .Phased)
    (hfrf : fixedAscii 200 (asciiLower v.cat_frame) = some (asciiLower v.cat_frame)) :
    ∀ s : Store, writePhaseCenter ext m a s =
      .ok { s with phase_type := some "phased"
                   phase_center_frame := some (asciiLower v.cat_frame)
                   phase_center_ra := some v.cat_lat
                   phase_center_dec := some v.cat_lon
                   phase_center_epoch := some v.cat_epoch } := by
  intro s
  unfold writePhaseCenter
  rw [hnph, hcat, hpt]
  simp only [List.head?_cons]
  unfold wAscii
  rw [hfrf]
  rfl

/-- Reduction of to_file to the flat expected store, given the per-section
success facts. -/
theorem to_file_reduce (ext : Ext) (ow : Bool) (d : UVH5)
    (da : Cube3 Cplx) (fa : Cube3 Bool) (na : Cube3 ℚ)
    (cblt ceq cpt cpf : Option String) (cra cdec cep : Option ℚ)
    (hda : d.data_array = some da) (hfa : d.flag_array = some fa)
    (hna : d.nsample_array = some na)
    (hv7 : fixedAscii 7 (asciiLower d.meta.vis_units.display)
      = some (asciiLower d.meta.vis_units.display))
    (hx5 : fixedAscii 5 (asciiLower d.meta.x_orientation.display)
      = some (asciiLower d.meta.x_orientation.display))
    (hbltw : ∀ s : Store, s.blt_order = none →
      wOptBlt d.meta.blt_order s = .ok { s with blt_order := cblt })
    (heqw : ∀ s : Store, s.eq_coeffs_convention = none →
      wOptEqConv d.meta.eq_coeffs_convention s = .ok { s with eq_coeffs_convention := ceq })
    (hinstr : fixedAscii 200 d.meta.instrument = some d.meta.instrument)
    (htname : fixedAscii 200 d.meta.telescope_name = some d.meta.telescope_name)
    (hobj : fixedAscii 200 d.meta.object_name = some d.meta.object_name)
    (hrdate : ∀ r, d.meta.rdate = some r → fixedAscii 200 r = some r)
    (htsys : ∀ t, d.meta.timesys = some t → fixedAscii 200 t = some t)
    (hhist : fixedAscii 20000 (stampHistory d.meta.history)
      = some (stampHistory d.meta.history))
    (hnames : mapFixedAscii 50 d.meta_arrays.antenna_names
      = some d.meta_arrays.antenna_names)
    (hwpc : ∀ s : Store, s.phase_type = none → s.phase_center_frame = none →
      s.phase_center_ra = none → s.phase_center_dec = none →
      s.phase_center_epoch = none →
      writePhaseCenter ext d.meta d.meta_arrays s =
      .ok { s with phase_type := cpt, phase_center_frame := cpf
                   phase_center_ra := cra, phase_center_dec := cdec
                   phase_center_epoch := cep }) :
    UVH5.to_file ext ow d = .ok (mkWriteStore ext d da fa na cblt
      (asciiLower d.meta.vis_units.display) (asciiLower d.meta.x_orientation.display)
      ceq cpt cpf cra cdec cep) := by
  unfold UVH5.to_file
  rw [hda]
  dsimp only
  rw [hbltw _ rfl]
  dsimp only [WRes.then]
  rw [wAscii_some _ _ _ _ _ hv7]
  dsimp only [WRes.then]
  rw [wAscii_some _ _ _ _ _ hx5]
  dsimp only [WRes.then]
  rw [wAscii_some _ _ _ _ _ hinstr]
  dsimp only [WRes.then]
  rw [wAscii_some _ _ _ _ _ htname]
  dsimp only [WRes.then]
  rw [wAscii_some _ _ _ _ _ hobj]
  dsimp only [WRes.then]
  rw [heqw _ rfl]
  dsimp only [WRes.then]
  rw [rdate_spec _ _ hrdate _ rfl]
  dsimp only [WRes.then]
  rw [tsys_spec _ _ htsys _ rfl]
  dsimp only [WRes.then]
  rw [wAscii_some _ _ _ _ _ hhist]
  dsimp only [WRes.then]
  rw [wNames_some _ _ hnames]
  dsimp only [WRes.then]
  rw [hwpc _ rfl rfl rfl rfl rfl]
  dsimp only [WRes.then]
  rw [hfa]
  dsimp only [WRes.then]
  rw [hna]
  rfl

/-- Reduction of from_file on the expected store to the expected readback,
given the parse facts and the phase-catalog result. -/
theorem from_file_reduce (ext : Ext) (d : UVH5)
    (da : Cube3 Cplx) (fa : Cube3 Bool) (na : Cube3 ℚ)
    (cblt ceq cpt cpf : Option String) (cra cdec cep : Option ℚ)
    (CAT : Catalog) (IDS : List ℕ)
    (hvp : VisUnit.from_str (asciiLower d.meta.vis_units.display)
      = .ok d.meta.vis_units)
    (hxp : Orientation.from_str (asciiLower d.meta.x_orientation.display)
      = .ok d.meta.x_orientation)
    (hbp : BltOrder.from_str (cblt.getD "unknown") = .ok d.meta.blt_order)
    (hcp : EqConvention.from_str (ceq.getD "unknown")
      = .ok d.meta.eq_coeffs_convention)
    (hpp : PhaseType.from_str (cpt.getD "unknown") = .ok d.meta.phase_type)
    (hol : asciiLower d.meta.object_name = d.meta.object_name)
    (hpc : readPhaseCatalog ext (mkWriteStore ext d da fa na cblt
        (asciiLower d.meta.vis_units.display)
        (asciiLower d.meta.x_orientation.display)
        ceq cpt cpf cra cdec cep)
      d.meta.phase_type d.meta.object_name d.meta.nblts = .ok (CAT, IDS)) :
    UVH5.from_file ext (mkWriteStore ext d da fa na cblt
      (asciiLower d.meta.vis_units.display)
      (asciiLower d.meta.x_orientation.display)
      ceq cpt cpf cra cdec cep) true
      = .ok (mkReadBack ext d da fa na CAT IDS) := by
  unfold mkWriteStore at hpc ⊢
  unfold UVH5.from_file
  simp only [reqD, unwrapD, ROut.bind, Option.getD_some, Option.getD_none,
    liftE, readFreq, readChannelWidth, readDataCubes,
    hvp, hxp, hbp, hcp, hpp, hol, hpc]
  rfl

/-! ## C4: per-element encoding choice -/

/-- C4 counterexample: with attempt256 set and antenna number 300 (out of the
legacy range), the code still emits the base-256 packing 77357, not the
base-2048 value 682285 the claim requires. -/
theorem c4_counterexample : ¬ c4ClaimProp := by
  intro h
  exact absurd (h [300] [300] true) (by decide)

/-- C4 amended: antnums_to_baseline packs elementwise with the encoding
chosen by the attempt256 flag alone; the magnitudes of the antenna numbers
play no part in the choice. -/
theorem c4_amended (a1 a2 : List ℕ) (att : Bool) :
    antnums_to_baseline a1 a2 att = List.zipWith (fun x y =>
      if att then 256 * (x + 1) + (y + 1)
      else 2048 * (x + 1) + (y + 1) + 2 ^ 16) a1 a2 := by
  cases att <;> rfl

/-! ## C5: baseline packing inverse law -/

/-- Unpacking inverts packing elementwise, plus the two concrete examples of
the spec (C5). -/
theorem c5_inverse :
    (∀ (a1 a2 : List ℕ) (att : Bool), a1.length = a2.length →
      (∀ x ∈ a1, x + 1 < if att then 256 else 2048) →
      (∀ x ∈ a2, x + 1 < if att then 256 else 2048) →
      baseline_to_antnums (antnums_to_baseline a1 a2 att) att = (a1, a2)) ∧
    antnums_to_baseline [10, 280] [20, 310] false = [88085, 641335] ∧
    antnums_to_baseline [0, 3] [0, 6] true = [257, 1031] := by
  refine ⟨?_, by decide, by decide⟩
  intro a1 a2 att
  induction a1 generalizing a2 with
  | nil =>
    intro hlen _ _
    cases a2 with
    | nil => cases att <;> rfl
    | cons y ys => simp at hlen
  | cons x xs ih =>
    intro hlen h1 h2
    cases a2 with
    | nil => simp at hlen
    | cons y ys =>
      have hlen2 : xs.length = ys.length := by simpa using hlen
      have h1x : x + 1 < if att then 256 else 2048 := h1 x (by simp)
      have h2y : y + 1 < if att then 256 else 2048 := h2 y (by simp)
      have ihr := ih ys hlen2 (fun a ha => h1 a (by simp [ha]))
        (fun a ha => h2 a (by simp [ha]))
      cases att with
      | false =>
        simp only [Bool.false_eq_true, if_false] at h1x h2y
        simp only [antnums_to_baseline, baseline_to_antnums,
          List.zipWith_cons_cons, List.map_cons, List.zip_cons_cons,
          Prod.mk.injEq, List.cons.injEq,
          show (2 : ℕ) ^ 16 = 65536 from rfl] at ihr ⊢
        exact ⟨⟨by omega, ihr.1⟩, by omega, ihr.2⟩
      | true =>
        simp only [if_true] at h1x h2y
        simp only [antnums_to_baseline, baseline_to_antnums,
          List.zipWith_cons_cons, List.map_cons, List.zip_cons_cons,
          Prod.mk.injEq, List.cons.injEq] at ihr ⊢
        exact ⟨⟨by omega, ihr.1⟩, by omega, ihr.2⟩

/-- C5 witness: the inverse law applied to the concrete arrays of the spec. -/
theorem c5_inverse_witness :
    baseline_to_antnums (antnums_to_baseline [10, 280] [20, 310] false) false
      = ([10, 280], [20, 310]) :=
  c5_inverse.1 [10, 280] [20, 310] false rfl (by decide) (by decide)

/-! ## C6: antenna_names length -/

/-- C6: ArrayMetaData::new builds antenna_names with nblts entries, not
nants_telescope; on the test-fixture counts the names array has length 15
while nants_telescope and the antenna_numbers length are 12. -/
theorem c6_names_length :
    (∀ m : UVMeta, (ArrayMetaData.new m).antenna_names.length = m.nblts) ∧
    (ArrayMetaData.new c6meta).antenna_names.length = 15 ∧
    c6meta.nants_telescope = 12 ∧
    (ArrayMetaData.new c6meta).antenna_numbers.length = 12 := by
  refine ⟨?_, by decide, by decide, by decide⟩
  intro m
  simp [ArrayMetaData.new]

/-! ## C7: display/parse round trip -/

/-- C7 counterexample: VisUnit Jansky displays as Jansky, whose lowercase
jansky is not accepted by the parser (which expects jy), refuting the claim
that every enumeration value round-trips through its display. -/
theorem c7_counterexample : ¬ c7ClaimProp := by
  intro h
  exact absurd (h.1 .Jansky) (by decide)

/-- C7 amended: the display/parse round trip holds for every PhaseType,
EqConvention and Orientation value; for VisUnit it holds exactly on Uncalib
(Jansky fails); for BltOrder it holds exactly on the twelve pairs of
distinct keys drawn from ant1, ant2, time and baseline; and the Bda ordering
serializes as the string with both halves spelled out, not with an empty
minor. -/
theorem c7_amended :
    (∀ v : PhaseType, PhaseType.from_str (asciiLower v.display) = .ok v) ∧
    (∀ v : EqConvention, EqConvention.from_str (asciiLower v.display) = .ok v) ∧
    (∀ v : Orientation, Orientation.from_str (asciiLower v.display) = .ok v) ∧
    (VisUnit.from_str (asciiLower VisUnit.Uncalib.display) = .ok .Uncalib) ∧
    (VisUnit.from_str (asciiLower VisUnit.Jansky.display)
      = .error "Unknown Visibility Unit: jansky.") ∧
    (∀ b : BltOrder, b.major ≠ b.minor →
      b.major ≠ .Bda → b.major ≠ .Unknown → b.minor ≠ .Bda → b.minor ≠ .Unknown →
      BltOrder.from_str (asciiLower b.display) = .ok b) ∧
    BltOrder.display ⟨.Bda, .Bda⟩ = "bda, bda" := by
  refine ⟨?_, ?_, ?_, by decide, by decide, ?_, by decide⟩
  · intro v; cases v <;> decide
  · intro v; cases v <;> decide
  · intro v; cases v <;> decide
  · intro b
    obtain ⟨ma, mi⟩ := b
    cases ma <;> cases mi <;> decide

/-- C7 witness: the amended round trip applied at the concrete pair
(time, baseline). -/
theorem c7_amended_witness :
    BltOrder.from_str (asciiLower (BltOrder.display ⟨.Time, .Baseline⟩))
      = .ok ⟨.Time, .Baseline⟩ :=
  c7_amended.2.2.2.2.2.1 ⟨.Time, .Baseline⟩ (by decide) (by decide) (by decide)
    (by decide) (by decide)

/-! ## C2: absent phase_type -/

/-- C2: on a header with every earlier field well formed but no phase_type
scalar, from_file propagates the parse error of the unknown sentinel (the
PhaseType parser has no unknown arm), rather than defaulting to Drift; by
contrast an absent vis_units does default to Uncalib, as the drift header
shows. -/
theorem c2_phase_default :
    UVH5.from_file extId sNoPhaseType false = .err "Unknown phase type: unknown." ∧
    ((UVH5.from_file extId sDriftHeader false).getOk?.map
      (fun u => (u.meta.vis_units, u.meta.phase_type)))
      = some (.Uncalib, .Drift) := by
  exact ⟨rfl, rfl⟩

/-! ## C8: metadata-only guard -/

/-- C8: to_file on any aggregate with an absent data cube returns the
metadata-only error before anything is written. -/
theorem c8_metadata_only (ext : Ext) (ow : Bool) (d : UVH5)
    (h : d.data_array = none) :
    UVH5.to_file ext ow d = .err "Unable to write metadata only objects to UVH5 files." := by
  unfold UVH5.to_file
  rw [h]

/-- C8 witness: the guard fired on a concrete metadata-only aggregate. -/
theorem c8_metadata_only_witness :
    UVH5.to_file extId true ((UVData.new UVMeta.new true).toUVH5)
      = .err "Unable to write metadata only objects to UVH5 files." :=
  c8_metadata_only extId true ((UVData.new UVMeta.new true).toUVH5) rfl

/-! ## C9: late unwrap panic -/

/-- C9: the metadata-only guard looks only at data_array; on a concrete
aggregate with the data cube present but the flag cube absent, to_file does
not return an error but panics on the unwrap of the missing cube, and the
store carried at the panic already holds the header (Nblts, history) and the
visibility data. -/
theorem c9_late_unwrap_panic :
    dNoFlag.data_array.isSome = true ∧ dNoFlag.flag_array = none ∧
    (UVH5.to_file extId true dNoFlag).isErr = false ∧
    (UVH5.to_file extId true dNoFlag).isPanicMsg = some "unwrap on None" ∧
    ((UVH5.to_file extId true dNoFlag).panicStoreD Store.empty).nblts
      = some dNoFlag.meta.nblts ∧
    ((UVH5.to_file extId true dNoFlag).panicStoreD Store.empty).history.isSome = true ∧
    ((UVH5.to_file extId true dNoFlag).panicStoreD Store.empty).visdata.isSome = true := by
  exact ⟨rfl, rfl, rfl, rfl, rfl, rfl, rfl⟩

/-! ## C10: fixed-capacity ASCII panics -/

/-- C10: with the data cube present, a Kelvinstr vis_units (kelvinstr, nine
bytes, capacity seven) makes to_file panic at the vis_units conversion; an
Unknown x_orientation (unknown, seven bytes, capacity five) makes it panic at
the x_orientation conversion; in particular a default-constructed UVMeta
panics, as does the concrete Kelvinstr aggregate. -/
theorem c10_fixed_ascii_panics :
    (∀ (ext : Ext) (ow : Bool) (d : UVH5), d.data_array.isSome = true →
      d.meta.vis_units = .Kelvinstr →
      ∃ s, UVH5.to_file ext ow d = .panic "Unable to write vis_units" s) ∧
    (∀ (ext : Ext) (ow : Bool) (d : UVH5), d.data_array.isSome = true →
      d.meta.vis_units ≠ .Kelvinstr → d.meta.x_orientation = .Unknown →
      ∃ s, UVH5.to_file ext ow d = .panic "Unable to write x_orientation" s) ∧
    (UVH5.to_file extId true ((UVData.new UVMeta.new false).toUVH5)).isPanicMsg
      = some "Unable to write x_orientation" ∧
    (UVH5.to_file extId true dKelvin).isPanicMsg = some "Unable to write vis_units" := by
  refine ⟨?_, ?_, rfl, rfl⟩
  · intro ext ow d hda hk
    obtain ⟨da, hda2⟩ := Option.isSome_iff_exists.mp hda
    have hvk : fixedAscii 7 (asciiLower d.meta.vis_units.display) = none := by
      rw [hk]; decide
    unfold UVH5.to_file
    rw [hda2]
    dsimp only
    by_cases hb : d.meta.blt_order.display = "unknown, unknown"
    · simp only [wOptBlt, if_pos hb, WRes.then_ok, wAscii, hvk, WRes.then_panic]
      exact ⟨_, rfl⟩
    · simp only [wOptBlt, if_neg hb, wAscii, bltDisplayFits, WRes.then_ok,
        hvk, WRes.then_panic]
      exact ⟨_, rfl⟩
  · intro ext ow d hda hnk hxu
    obtain ⟨da, hda2⟩ := Option.isSome_iff_exists.mp hda
    have hxf : fixedAscii 5 (asciiLower d.meta.x_orientation.display) = none := by
      rw [hxu]; decide
    unfold UVH5.to_file
    rw [hda2]
    dsimp only
    by_cases hb : d.meta.blt_order.display = "unknown, unknown"
    · simp only [wOptBlt, if_pos hb, WRes.then_ok, wAscii,
        visUnitFits d.meta.vis_units hnk, hxf, WRes.then_panic]
      exact ⟨_, rfl⟩
    · simp only [wOptBlt, if_neg hb, wAscii, bltDisplayFits, WRes.then_ok,
        visUnitFits d.meta.vis_units hnk, hxf, WRes.then_panic]
      exact ⟨_, rfl⟩

/-- C10 witness: both panic branches fired through the theorem at concrete
aggregates. -/
theorem c10_fixed_ascii_panics_witness :
    (∃ s, UVH5.to_file extId true dKelvin = .panic "Unable to write vis_units" s) ∧
    (∃ s, UVH5.to_file extId true dXUnknown = .panic "Unable to write x_orientation" s) :=
  ⟨c10_fixed_ascii_panics.1 extId true dKelvin (by decide) rfl,
   c10_fixed_ascii_panics.2.1 extId true dXUnknown (by decide) (by decide) rfl⟩

/-! ## C1 counterexample -/

/-- C1 counterexample: the round-trip law fails on the concrete single-phase
Sidereal aggregate dCex1 (cat_lat = 0, cat_lon = 1): the write path stores
phase_center_ra from cat_lat and phase_center_dec from cat_lon, the read
path maps them back crosswise, so the re-read catalog swaps the two values
and the tolerant equality is violated although both codec directions
succeed. -/
theorem c1_counterexample : ¬ c1ClaimProp := by
  intro h
  exact absurd (h extId true dCex1 (by decide)) (by decide)

/-- C1 amended: the write/read round trip is the identity up to tolerant
equality and history stamping on the write-consistent class RoundTripSafe:
cubes present; nphases = 1 with the canonical Drift catalog or a normalized
single Sidereal entry whose lat and lon agree within tolerance; vis_units
Uncalib; x_orientation not Unknown; blt_order the unknown pair or a
parseable pair; derived fields (nbls, baseline_array, phase_center_id_array)
consistent; strings within their FixedAscii bounds; object_name lowercase;
and the geodetic transforms round-tripping the telescope location within
tolerance. -/
theorem c1_amended (ext : Ext) (ow : Bool) (d : UVH5) (h : RoundTripSafe ext d) :
    roundTripEqB ext ow d = true := by
  obtain ⟨da, hda⟩ := Option.isSome_iff_exists.mp h.hdata
  obtain ⟨fa, hfa⟩ := Option.isSome_iff_exists.mp h.hflag
  obtain ⟨na, hna⟩ := Option.isSome_iff_exists.mp h.hnsamp
  obtain ⟨hv7, hvp⟩ := vis_spec d.meta.vis_units h.hvis
  obtain ⟨hx5, hxp⟩ := xorient_spec d.meta.x_orientation h.hx
  obtain ⟨cblt, hbltw, hbp⟩ := blt_spec d.meta.blt_order h.hblt
  obtain ⟨ceq, heqw, hcp⟩ := eqconv_spec d.meta.eq_coeffs_convention
  rcases h.hcat with ⟨hc, hPT⟩ |
    ⟨v, hc, hPT, hid0, hty, hll, hfr, hfrf, hpm1, hpm2, hdi, hvr, hinfo⟩
  · -- the canonical Drift catalog
    have hwpc : ∀ s : Store, s.phase_type = none → s.phase_center_frame = none →
        s.phase_center_ra = none → s.phase_center_dec = none →
        s.phase_center_epoch = none →
        writePhaseCenter ext d.meta d.meta_arrays s = .ok { s with
          phase_type := some "drift", phase_center_frame := none
          phase_center_ra := none, phase_center_dec := none
          phase_center_epoch := none } := by
      intro s h1 h2 h3 h4 h5
      rw [wpc_drift ext d.meta d.meta_arrays h.hnph hc s]
      cases s
      dsimp only at h2 h3 h4 h5
      subst h2
      subst h3
      subst h4
      subst h5
      rfl
    have hto := to_file_reduce ext ow d da fa na cblt ceq (some "drift") none
      none none none hda hfa hna hv7 hx5 hbltw heqw h.hinstr h.htname h.hobj
      h.hrdate h.htsys h.hhist h.hnames hwpc
    have hpp : PhaseType.from_str ((some "drift").getD "unknown")
        = .ok d.meta.phase_type := by
      rw [hPT]
      decide
    have hpcat : readPhaseCatalog ext (mkWriteStore ext d da fa na cblt
        (asciiLower d.meta.vis_units.display)
        (asciiLower d.meta.x_orientation.display)
        ceq (some "drift") none none none none)
        d.meta.phase_type d.meta.object_name d.meta.nblts
        = .ok ([("zenith", .Unphased ⟨0, "unphased"⟩)],
               List.replicate d.meta.nblts 0) := by
      rw [hPT]
      rfl
    have hfrom := from_file_reduce ext d da fa na cblt ceq (some "drift") none
      none none none [("zenith", .Unphased ⟨0, "unphased"⟩)]
      (List.replicate d.meta.nblts 0) hvp hxp hbp hcp hpp h.hobjlow hpcat
    unfold roundTripEqB
    rw [hto]
    dsimp only
    rw [hfrom]
    dsimp only
    simp only [eqExceptHistB, UVH5.setHistory, uvh5EqB, mkReadBack,
      UVMeta.eqB, ArrayMetaData.eqB, Bool.and_eq_true, beq_self_eq_true,
      decide_eq_true_eq, stampHistory_idem, stampHistory_cases,
      h.hnbls, h.hnph, h.hbl, h.hid, h.hgeo, hda, hfa, hna, hc,
      qtol6_refl, qtolF32_refl, optTolF32_refl, optTol6_refl,
      optListTol6_refl, optList2Tol6_refl, listTol6_refl, list2Tol6_refl,
      v3Tol_refl, cube3Cplx_refl, cube3Q_refl, optCube3Cplx_refl,
      optCube3Q_refl, and_true, true_and]
    all_goals rfl
  · -- a normalized single Sidereal catalog
    have hfrf2 : fixedAscii 200 (asciiLower v.cat_frame)
        = some (asciiLower v.cat_frame) := by
      rw [hfr]
      exact hfrf
    have hwpc : ∀ s : Store, s.phase_type = none → s.phase_center_frame = none →
        s.phase_center_ra = none → s.phase_center_dec = none →
        s.phase_center_epoch = none →
        writePhaseCenter ext d.meta d.meta_arrays s = .ok { s with
          phase_type := some "phased"
          phase_center_frame := some (asciiLower v.cat_frame)
          phase_center_ra := some v.cat_lat
          phase_center_dec := some v.cat_lon
          phase_center_epoch := some v.cat_epoch } := by
      intro s _ _ _ _ _
      exact wpc_sidereal ext d.meta d.meta_arrays d.meta.object_name v
        h.hnph hc hPT hfrf2 s
    have hto := to_file_reduce ext ow d da fa na cblt ceq (some "phased")
      (some (asciiLower v.cat_frame)) (some v.cat_lat) (some v.cat_lon)
      (some v.cat_epoch) hda hfa hna hv7 hx5 hbltw heqw h.hinstr h.htname
      h.hobj h.hrdate h.htsys h.hhist h.hnames hwpc
    have hpp : PhaseType.from_str ((some "phased").getD "unknown")
        = .ok d.meta.phase_type := by
      rw [hPT]
      decide
    have hpcat : readPhaseCatalog ext (mkWriteStore ext d da fa na cblt
        (asciiLower d.meta.vis_units.display)
        (asciiLower d.meta.x_orientation.display)
        ceq (some "phased") (some (asciiLower v.cat_frame)) (some v.cat_lat)
        (some v.cat_lon) (some v.cat_epoch))
        d.meta.phase_type d.meta.object_name d.meta.nblts
        = .ok ([(d.meta.object_name, .Sidereal
            { cat_id := 0, cat_type := "sidereal", cat_lon := v.cat_lat
              cat_lat := v.cat_lon
              cat_frame := asciiLower (asciiLower v.cat_frame)
              cat_epoch := v.cat_epoch, cat_pm_ra := none, cat_pm_dec := none
              cat_dist := none, cat_vrad := none
              info_source := some "UVData" })],
           List.replicate d.meta.nblts 0) := by
      rw [hPT]
      rfl
    have hfrom := from_file_reduce ext d da fa na cblt ceq (some "phased")
      (some (asciiLower v.cat_frame)) (some v.cat_lat) (some v.cat_lon)
      (some v.cat_epoch)
      [(d.meta.object_name, .Sidereal
        { cat_id := 0, cat_type := "sidereal", cat_lon := v.cat_lat
          cat_lat := v.cat_lon
          cat_frame := asciiLower (asciiLower v.cat_frame)
          cat_epoch := v.cat_epoch, cat_pm_ra := none, cat_pm_dec := none
          cat_dist := none, cat_vrad := none, info_source := some "UVData" })]
      (List.replicate d.meta.nblts 0) hvp hxp hbp hcp hpp h.hobjlow hpcat
    have hll2 := qtol_symm tol6 v.cat_lat v.cat_lon hll
    unfold roundTripEqB
    rw [hto]
    dsimp only
    rw [hfrom]
    dsimp only
    simp only [eqExceptHistB, UVH5.setHistory, uvh5EqB, mkReadBack,
      UVMeta.eqB, ArrayMetaData.eqB, Bool.and_eq_true, beq_self_eq_true,
      decide_eq_true_eq, stampHistory_idem, stampHistory_cases,
      h.hnbls, h.hnph, h.hbl, h.hid, h.hgeo, hda, hfa, hna, hc,
      catalogEqB, listEqBy, CatTypes.eqB, SiderealVal.eqB,
      List.zip_cons_cons, List.all_cons, List.all_nil,
      List.length_cons, List.length_nil, List.zip_nil_left,
      hid0, hty, hll, hll2, hfr, hpm1, hpm2, hdi, hvr, hinfo,
      qtol6_refl, qtolF32_refl, optTolF32_refl, optTol6_refl,
      optListTol6_refl, optList2Tol6_refl, listTol6_refl, list2Tol6_refl,
      v3Tol_refl, cube3Cplx_refl, cube3Q_refl, optCube3Cplx_refl,
      optCube3Q_refl, and_true, true_and]

/-- C1 amended witness: the concrete write-consistent Drift aggregate
dDrift1 round-trips. -/
theorem c1_amended_witness : roundTripEqB extId true dDrift1 = true :=
  c1_amended extId true dDrift1
    { hdata := rfl
      hflag := rfl
      hnsamp := rfl
      hnph := rfl
      hvis := rfl
      hx := Or.inl rfl
      hblt := Or.inl rfl
      hinstr := by decide
      htname := by decide
      hobj := by decide
      hobjlow := by decide
      hrdate := fun r hr => Option.noConfusion hr
      htsys := fun t ht => Option.noConfusion ht
      hhist := by decide
      hnames := by decide
      hnbls := by decide
      hbl := by decide
      hid := by decide
      hgeo := by decide
      hcat := Or.inl ⟨rfl, rfl⟩ }

/-! ## C3: the ra/dec swap -/

/-- C3: on the legacy single-phase Sidereal write path the phase_center_ra
scalar receives cat_lat and phase_center_dec receives cat_lon, while the
legacy phased read path builds cat_lon from phase_center_ra and cat_lat from
phase_center_dec. -/
theorem c3_radec_swap :
    (∀ (ext : Ext) (m : UVMeta) (a : ArrayMetaData) (s s2 : Store)
      (k : String) (v : SiderealVal),
      m.nphases = 1 → a.phase_center_catalog.head? = some (k, .Sidereal v) →
      writePhaseCenter ext m a s = .ok s2 →
      s2.phase_center_ra = some v.cat_lat ∧ s2.phase_center_dec = some v.cat_lon) ∧
    (∀ (ext : Ext) (s : Store) (objn : String) (nblts : ℕ) (r dc : ℚ)
      (cat : Catalog) (ids : List ℕ),
      s.phase_center_catalog = none → s.phase_center_ra = some r →
      s.phase_center_dec = some dc →
      readPhaseCatalog ext s .Phased objn nblts = .ok (cat, ids) →
      ∃ sv : SiderealVal, cat = [(objn, .Sidereal sv)] ∧
        sv.cat_lon = r ∧ sv.cat_lat = dc) := by
  constructor
  · intro ext m a s s2 k v hnph hhead hok
    unfold writePhaseCenter at hok
    rw [hnph, hhead] at hok
    dsimp only at hok
    unfold wAscii at hok
    rcases hpt : fixedAscii 6 (asciiLower m.phase_type.display) with _ | p
    · rw [hpt] at hok
      dsimp only [WRes.then] at hok
      exact WRes.noConfusion hok
    · rw [hpt] at hok
      dsimp only [WRes.then] at hok
      rcases hfr : fixedAscii 200 (asciiLower v.cat_frame) with _ | f
      · rw [hfr] at hok
        dsimp only [WRes.then] at hok
        exact WRes.noConfusion hok
      · rw [hfr] at hok
        dsimp only [WRes.then] at hok
        cases hok
        exact ⟨rfl, rfl⟩
  · intro ext s objn nblts r dc cat ids hnone hra hdec hok
    unfold readPhaseCatalog at hok
    rw [hnone, hra, hdec] at hok
    dsimp only [unwrapD, ROut.bind] at hok
    rcases hep : s.phase_center_epoch with _ | e
    · rw [hep] at hok
      dsimp only [unwrapD, ROut.bind] at hok
      exact ROut.noConfusion hok
    · rw [hep] at hok
      dsimp only [unwrapD, ROut.bind] at hok
      simp only [ROut.ok.injEq, Prod.mk.injEq] at hok
      obtain ⟨h1, h2⟩ := hok
      subst h1
      exact ⟨_, rfl, rfl, rfl⟩

/-- C3 witness: the swap observed through the theorem on concrete inputs:
the dCex1 write produces ra = 0 (its cat_lat) and dec = 1 (its cat_lon), and
reading the phased header with ra = 5, dec = 7 yields an entry with
cat_lon = 5 and cat_lat = 7. -/
theorem c3_radec_swap_witness :
    (s3w.phase_center_ra = some svCex.cat_lat ∧
     s3w.phase_center_dec = some svCex.cat_lon) ∧
    (∃ sv : SiderealVal, catPhasedW = [("obj", .Sidereal sv)] ∧
      sv.cat_lon = 5 ∧ sv.cat_lat = 7) :=
  ⟨c3_radec_swap.1 extId dCex1.meta dCex1.meta_arrays Store.empty s3w
      "obj" svCex rfl rfl rfl,
   c3_radec_swap.2 extId sPhasedHeader "obj" 1 5 7 catPhasedW
      (List.replicate 1 0) rfl rfl rfl rfl⟩

end UVD
